import Mathlib

/-!
# Alset-IoT vehicle simulation: the planning loop

A shallow embedding of `src/src/vehicle.cpp` (classes `IMU`, `Scanners`, `GPS`,
`SensorsAndCameras`, `VehicleControl`, `Display`, `Planning`) and of the
`status_struct` record of `src/src/vehicle.hpp`.

Conventions of the embedding:

* every C++ object is a structure, every mutating method a function that returns
  the updated object; methods that mutate several objects passed by reference
  return the updated tuple;
* C++ `double` values are idealised as exact rationals (`ℚ`), so `x * .95` is the
  exact product `x * (95/100)`; C++ `int` values are unbounded integers (no
  arithmetic on them can leave the `int` range in the code that is modelled:
  lane numbers move by one inside guards, every other `int` is only stored and
  compared);
* trivial getters (`getGear`, `getCurrentVelocity`, ...) are field projections;
  getters and setters that contain logic are functions of their own;
* console input of `run_systems` is modelled by the already parsed value `val`.
-/

namespace Alset

/-! ## Sensor fusion -/

/-- Class `IMU`: the current speed of the vehicle. -/
structure IMU where
  currentVelocity : ℚ
deriving DecidableEq

/-- Class `Scanners`: lane geometry. -/
structure Scanners where
  lane_width : ℚ
  right_line : ℚ
  left_line : ℚ
  marked_road : Bool
deriving DecidableEq

/-- Class `GPS`: road class flags, lane count and current lane. -/
structure GPS where
  onHighway : Bool
  onLocalRoute : Bool
  numberOfLanes : Int
  laneNumber : Int
deriving DecidableEq

/-- Class `SensorsAndCameras`: the perception inputs. -/
structure SensorsAndCameras where
  lightLevel : ℚ
  distanceInFront : ℚ
  distanceBehind : ℚ
  objectRight : Bool
  objectLeft : Bool
  rainDetected : Bool
deriving DecidableEq

/-- Class `VehicleControl`: the actuators.
Gear: 0 P, 1 R, 2 N, 3 D. Headlights: 0 off, 1 on, 2 high beams.
Turn signal: -1 left, 0 none, 1 right. -/
structure VehicleControl where
  ccActive : Bool
  windshieldWipers : Bool
  headlightLevel : Int
  gear : Int
  turnSignal : Int
deriving DecidableEq

/-- Record `status_struct` of `vehicle.hpp`: the display snapshot. -/
structure status_struct where
  speed : Int
  gear : Int
  cruise_control_active : Bool
  wipers_on : Bool
  cars_in_front : Bool
  cars_in_back : Bool
  cars_on_left : Bool
  cars_on_right : Bool
  lane_warning : Int
  headlights : Int
  rear_view : Bool
  lane : Int
  num_lanes : Int
  leftTurn : Bool
  rightTurn : Bool
deriving DecidableEq

/-- Class `Display`: holder of the snapshot. -/
structure Display where
  status : status_struct
deriving DecidableEq

/-- Class `Planning`: the whole simulation state. -/
structure Planning where
  vehicleControl : VehicleControl
  imu : IMU
  scanners : Scanners
  gps : GPS
  sensorsAndCameras : SensorsAndCameras
  display : Display
  wantsToAcc : Bool
  wantsToBrk : Bool
  speed_wanted : Int
deriving DecidableEq

/-- The constant `INT_MAX` of `limits.h` (32-bit `int`). -/
def INT_MAX : Int := 2147483647

/-- The C++ conversion `(int) x` of a `double` to `int`: truncation toward zero. -/
def castToInt (x : ℚ) : Int := if 0 ≤ x then ⌊x⌋ else ⌈x⌉

/-! ### Constructors -/

/-- Constructor `IMU(double velo)`. -/
def IMU.mk1 (velo : ℚ) : IMU := { currentVelocity := velo }

/-- Constructor `Scanners(width, right, left, marked)`. -/
def Scanners.mk4 (width right left : ℚ) (marked : Bool) : Scanners :=
  { lane_width := width, right_line := right, left_line := left, marked_road := marked }

/-- Default constructor `GPS()`. -/
def GPS.mk0 : GPS :=
  { onHighway := false, onLocalRoute := false, numberOfLanes := 1, laneNumber := 1 }

/-- Constructor `GPS(bool H, bool L, int num_lanes, int lane)`. -/
def GPS.mk4 (H L : Bool) (num_lanes lane : Int) : GPS :=
  let onHighway := if H = true ∧ L = true then false else H
  let onLocalRoute := if H = true ∧ L = true then false else L
  let numberOfLanes := if num_lanes > 0 then num_lanes else 1
  let laneNumber :=
    if lane < 1 then 1
    else if lane > numberOfLanes then numberOfLanes
    else lane
  { onHighway := onHighway, onLocalRoute := onLocalRoute,
    numberOfLanes := numberOfLanes, laneNumber := laneNumber }

/-- Default constructor `SensorsAndCameras()`. -/
def SensorsAndCameras.mk0 : SensorsAndCameras :=
  { lightLevel := 200, distanceInFront := INT_MAX, distanceBehind := INT_MAX,
    objectRight := false, objectLeft := false, rainDetected := false }

/-- Constructor `VehicleControl(bool cc, bool inDrive)`. -/
def VehicleControl.mk2 (cc inDrive : Bool) : VehicleControl :=
  { ccActive := cc, headlightLevel := 0, gear := if inDrive = true then 3 else 0,
    windshieldWipers := false, turnSignal := 0 }

/-- Default constructor `Display()`. -/
def Display.mk0 : Display :=
  { status :=
      { speed := 0, gear := 0, cruise_control_active := false, wipers_on := false,
        cars_in_front := false, cars_in_back := false, cars_on_left := false,
        cars_on_right := false, lane_warning := -1, headlights := 0, rear_view := false,
        lane := 1, num_lanes := 1, leftTurn := false, rightTurn := false } }

/-! ### `Scanners` and `GPS` methods -/

def Scanners.distanceFromLineRight (s : Scanners) : ℚ :=
  if s.marked_road = false then -1 else s.right_line

def Scanners.distanceFromLineLeft (s : Scanners) : ℚ :=
  if s.marked_road = false then -1 else s.left_line

def GPS.setOnHighway (g : GPS) : GPS := { g with onHighway := true, onLocalRoute := false }

def GPS.setOnLocalRoad (g : GPS) : GPS := { g with onHighway := false, onLocalRoute := true }

def GPS.setOnUnregisteredRoad (g : GPS) : GPS :=
  { g with onHighway := false, onLocalRoute := false }

def GPS.setNumberOfLanes (g : GPS) (num : Int) : GPS :=
  if num > 0 then { g with numberOfLanes := num } else g

def GPS.setLaneNumber (g : GPS) (lane : Int) : GPS :=
  if lane > 0 ∧ lane ≤ g.numberOfLanes then { g with laneNumber := lane } else g

def GPS.isOnHighway (g : GPS) : Bool := g.onHighway

def GPS.isOnLocalRoute (g : GPS) : Bool := g.onLocalRoute

def GPS.isOnUnregisteredRoad (g : GPS) : Bool := !g.onHighway && !g.onLocalRoute

/-! ## Vehicle control -/

namespace VehicleControl

def startCC (vc : VehicleControl) (imu : IMU) (gps : GPS) : VehicleControl :=
  if gps.isOnHighway = true ∧ imu.currentVelocity > 0 then { vc with ccActive := true } else vc

def stopCC (vc : VehicleControl) : VehicleControl := { vc with ccActive := false }

def setGear (vc : VehicleControl) (val : Int) : VehicleControl :=
  if val ≥ 0 ∧ val ≤ 3 then { vc with gear := val } else vc

def turnOffHeadlights (vc : VehicleControl) : VehicleControl := { vc with headlightLevel := 0 }

def turnOnHeadLights (vc : VehicleControl) (level : Int) : VehicleControl :=
  let vc1 := if level = 0 then { vc with headlightLevel := 0 } else vc
  let vc2 := if level = 1 then { vc1 with headlightLevel := 1 } else vc1
  if level > 1 then { vc2 with headlightLevel := 2 } else vc2

def leftTurnSignal (vc : VehicleControl) : VehicleControl := { vc with turnSignal := -1 }

def rightTurnSignal (vc : VehicleControl) : VehicleControl := { vc with turnSignal := 1 }

def turnComplete (vc : VehicleControl) : VehicleControl := { vc with turnSignal := 0 }

def turnOnWindshieldWipers (vc : VehicleControl) (wipers : Bool) : VehicleControl :=
  { vc with windshieldWipers := wipers }

/-- Method `brake(imu, sensorsAndCameras, intensity)`; it reads the gear and
updates the velocity and the front distance. -/
def brake (vc : VehicleControl) (imu : IMU) (sc : SensorsAndCameras) (intensity : Int) :
    IMU × SensorsAndCameras :=
  let reversing : Bool := decide (imu.currentVelocity < 5)
  if intensity = 1 then
    let imu1 : IMU := { imu with currentVelocity := imu.currentVelocity * (95 / 100) }
    if vc.gear = 3 ∨ vc.gear = 2 ∨ reversing = false then
      if imu1.currentVelocity < 5 then ({ imu1 with currentVelocity := 0 }, sc)
      else (imu1, { sc with distanceInFront := sc.distanceInFront + 10 })
    else if vc.gear = 1 then
      if imu1.currentVelocity > -5 then ({ imu1 with currentVelocity := 0 }, sc)
      else (imu1, sc)
    else (imu1, sc)
  else if intensity = 2 then
    let imu1 : IMU := { imu with currentVelocity := imu.currentVelocity * (90 / 100) }
    if vc.gear = 3 ∨ vc.gear = 2 ∨ reversing = false then
      if imu1.currentVelocity < 5 then ({ imu1 with currentVelocity := 0 }, sc)
      else (imu1, { sc with distanceInFront := sc.distanceInFront + 15 })
    else if vc.gear = 1 then
      if imu1.currentVelocity > -5 then ({ imu1 with currentVelocity := 0 }, sc)
      else (imu1, sc)
    else (imu1, sc)
  else
    let imu1 : IMU := { imu with currentVelocity := imu.currentVelocity * (85 / 100) }
    if vc.gear = 3 ∨ vc.gear = 2 ∨ reversing = false then
      if imu1.currentVelocity < 5 then ({ imu1 with currentVelocity := 0 }, sc)
      else (imu1, { sc with distanceInFront := sc.distanceInFront + 20 })
    else if vc.gear = 1 then
      if imu1.currentVelocity > -5 then ({ imu1 with currentVelocity := 0 }, sc)
      else (imu1, sc)
    else (imu1, sc)

/-- Method `brakeTo(imu, sensorsAndCameras, speed)`. -/
def brakeTo (vc : VehicleControl) (imu : IMU) (sc : SensorsAndCameras) (speed : Int) :
    IMU × SensorsAndCameras :=
  let r := vc.brake imu sc 2
  let imu1 : IMU :=
    if (r.1.currentVelocity ≤ speed ∧ vc.gear = 3) ∨
        (r.1.currentVelocity ≥ speed ∧ vc.gear = 1) then
      { r.1 with currentVelocity := speed }
    else r.1
  let imu2 : IMU :=
    if speed < 5 ∧ vc.gear = 3 ∧ imu1.currentVelocity < 5 then
      { imu1 with currentVelocity := speed }
    else imu1
  let imu3 : IMU :=
    if speed > -5 ∧ vc.gear = 1 ∧ imu2.currentVelocity > -5 then
      { imu2 with currentVelocity := speed }
    else imu2
  (imu3, r.2)

/-- Method `accelerateTo(imu, sensorsAndCameras, speed)`. -/
def accelerateTo (vc : VehicleControl) (imu : IMU) (sc : SensorsAndCameras) (speed : Int) :
    IMU × SensorsAndCameras :=
  let imu1 : IMU :=
    if imu.currentVelocity ≤ 10 ∧ vc.gear = 3 then { imu with currentVelocity := 10 * (12 / 10) }
    else if imu.currentVelocity ≥ -10 ∧ vc.gear = 1 then
      { imu with currentVelocity := -10 * (12 / 10) }
    else { imu with currentVelocity := imu.currentVelocity * (110 / 100) }
  if vc.gear = 3 then
    let sc1 : SensorsAndCameras := { sc with distanceInFront := sc.distanceInFront - 10 }
    let sc2 : SensorsAndCameras := { sc1 with distanceBehind := sc1.distanceBehind + 10 }
    if imu1.currentVelocity ≥ speed then ({ imu1 with currentVelocity := speed }, sc2)
    else (imu1, sc2)
  else if vc.gear = 1 then
    let sc1 : SensorsAndCameras := { sc with distanceInFront := sc.distanceInFront + 10 }
    if imu1.currentVelocity ≤ speed then ({ imu1 with currentVelocity := speed }, sc1)
    else (imu1, sc1)
  else (imu1, sc)

end VehicleControl

/-! ## Planning -/

namespace Planning

/-- Constructor `Planning()`. The members `wantsToAcc`, `wantsToBrk` and
`speed_wanted` are not initialised by the constructor, so their initial values
are parameters. -/
def mk0 (wantsToAcc wantsToBrk : Bool) (speed_wanted : Int) : Planning :=
  { vehicleControl := VehicleControl.mk2 true true
    imu := IMU.mk1 60
    scanners := Scanners.mk4 12 3 3 true
    gps := GPS.mk4 true false 4 2
    sensorsAndCameras := SensorsAndCameras.mk0
    display := Display.mk0
    wantsToAcc := wantsToAcc
    wantsToBrk := wantsToBrk
    speed_wanted := speed_wanted }

/-- The call `vehicleControl.brake(imu, sensorsAndCameras, intensity)` inside `Planning`. -/
def callBrake (p : Planning) (intensity : Int) : Planning :=
  let r := p.vehicleControl.brake p.imu p.sensorsAndCameras intensity
  { p with imu := r.1, sensorsAndCameras := r.2 }

/-- The call `vehicleControl.brakeTo(imu, sensorsAndCameras, speed)` inside `Planning`. -/
def callBrakeTo (p : Planning) (speed : Int) : Planning :=
  let r := p.vehicleControl.brakeTo p.imu p.sensorsAndCameras speed
  { p with imu := r.1, sensorsAndCameras := r.2 }

/-- The call `vehicleControl.accelerateTo(imu, sensorsAndCameras, speed)` inside `Planning`. -/
def callAccelerateTo (p : Planning) (speed : Int) : Planning :=
  let r := p.vehicleControl.accelerateTo p.imu p.sensorsAndCameras speed
  { p with imu := r.1, sensorsAndCameras := r.2 }

def brakeWhenObjectDetected (p : Planning) : Planning :=
  if p.vehicleControl.gear = 2 ∨ p.vehicleControl.gear = 3 then
    if p.imu.currentVelocity ≠ 0 ∧ p.sensorsAndCameras.distanceInFront > 20
        ∧ p.sensorsAndCameras.distanceInFront < 100 then
      { p.callBrake 1 with wantsToAcc := false }
    else if p.imu.currentVelocity ≠ 0 ∧ p.sensorsAndCameras.distanceInFront > 10
        ∧ p.sensorsAndCameras.distanceInFront ≤ 20 then
      { p.callBrake 2 with wantsToAcc := false }
    else if p.imu.currentVelocity ≠ 0 ∧ p.sensorsAndCameras.distanceInFront > 0
        ∧ p.sensorsAndCameras.distanceInFront ≤ 10 then
      { p.callBrake 3 with wantsToAcc := false }
    else p
  else if p.vehicleControl.gear = 1 then
    if p.imu.currentVelocity ≠ 0 ∧ p.sensorsAndCameras.distanceBehind > 0
        ∧ p.sensorsAndCameras.distanceBehind < 20 then
      { p.callBrake 3 with wantsToAcc := false }
    else p
  else p

def automaticallyChangeLane (p : Planning) : Planning :=
  if p.imu.currentVelocity ≠ 0 ∧ p.vehicleControl.ccActive = true ∧ p.gps.numberOfLanes > 1 then
    if p.vehicleControl.turnSignal < 0 then
      if p.sensorsAndCameras.objectLeft = false ∧ p.gps.laneNumber > 1 then
        { p with
          gps := p.gps.setLaneNumber (p.gps.laneNumber - 1)
          vehicleControl := p.vehicleControl.turnComplete
          sensorsAndCameras := { p.sensorsAndCameras with objectRight := false } }
      else { p with vehicleControl := p.vehicleControl.turnComplete }
    else if p.vehicleControl.turnSignal > 0 then
      if p.sensorsAndCameras.objectRight = false ∧ p.gps.laneNumber < p.gps.numberOfLanes then
        { p with
          gps := p.gps.setLaneNumber (p.gps.laneNumber + 1)
          vehicleControl := p.vehicleControl.turnComplete
          sensorsAndCameras := { p.sensorsAndCameras with objectLeft := false } }
      else { p with vehicleControl := p.vehicleControl.turnComplete }
    else p
  else p

def automaticHeadLights (p : Planning) : Planning :=
  if (p.sensorsAndCameras.lightLevel < 200 ∨ p.sensorsAndCameras.rainDetected = true)
      ∧ p.vehicleControl.headlightLevel = 0 then
    { p with vehicleControl := p.vehicleControl.turnOnHeadLights 1 }
  else if (p.sensorsAndCameras.lightLevel ≥ 200 ∧ p.sensorsAndCameras.rainDetected = false)
      ∧ p.vehicleControl.headlightLevel > 0 then
    { p with vehicleControl := p.vehicleControl.turnOffHeadlights }
  else p

def automaticaHighBeams (p : Planning) : Planning :=
  if p.sensorsAndCameras.lightLevel < 50
      ∧ p.imu.currentVelocity > 25
      ∧ p.sensorsAndCameras.rainDetected = false
      ∧ p.sensorsAndCameras.distanceInFront ≥ 100 then
    if p.vehicleControl.headlightLevel = 1 then
      { p with vehicleControl := p.vehicleControl.turnOnHeadLights 2 }
    else p
  else if p.vehicleControl.headlightLevel = 2 then
    { p with vehicleControl := p.vehicleControl.turnOnHeadLights 1 }
  else p

def automaticWindshieldWipers (p : Planning) : Planning :=
  if p.sensorsAndCameras.rainDetected = true then
    { p with vehicleControl := p.vehicleControl.turnOnWindshieldWipers true }
  else
    { p with vehicleControl := p.vehicleControl.turnOnWindshieldWipers false }

def gearControl (p : Planning) : Planning :=
  let p1 : Planning :=
    if p.vehicleControl.gear = 0 ∧ p.imu.currentVelocity ≠ 0 then
      { p with imu := { p.imu with currentVelocity := 0 } }
    else if p.vehicleControl.gear = 1 ∧ p.imu.currentVelocity > 0 then
      { p with imu := { p.imu with currentVelocity := 0 } }
    else if p.vehicleControl.gear = 3 ∧ p.imu.currentVelocity < 0 then
      { p with imu := { p.imu with currentVelocity := 0 } }
    else p
  if (p1.vehicleControl.gear = 0 ∨ p1.vehicleControl.gear = 1 ∨ p1.vehicleControl.gear = 2)
      ∧ p1.vehicleControl.ccActive = true then
    { p1 with vehicleControl := p1.vehicleControl.stopCC }
  else if p1.vehicleControl.gear = 3 ∧ p1.vehicleControl.ccActive = false then
    { p1 with vehicleControl := p1.vehicleControl.startCC p1.imu p1.gps }
  else p1

def acc (p : Planning) : Planning :=
  let gear := p.vehicleControl.gear
  if p.wantsToAcc = true then
    let p1 := p.callAccelerateTo p.speed_wanted
    let p2 : Planning :=
      if p1.imu.currentVelocity ≥ p1.speed_wanted ∧ gear = 3 then { p1 with wantsToAcc := false }
      else p1
    if p2.imu.currentVelocity ≤ p2.speed_wanted ∧ gear = 1 then { p2 with wantsToAcc := false }
    else p2
  else p

def brk (p : Planning) : Planning :=
  let gear := p.vehicleControl.gear
  if p.wantsToBrk = true then
    let p1 := p.callBrakeTo p.speed_wanted
    let p2 : Planning :=
      if p1.imu.currentVelocity ≤ p1.speed_wanted ∧ gear = 3 then { p1 with wantsToBrk := false }
      else p1
    if p2.imu.currentVelocity ≥ p2.speed_wanted ∧ gear = 1 then { p2 with wantsToBrk := false }
    else p2
  else p

/-- One pass over all control policies, in the order of the source. -/
def check_all (p : Planning) : Planning :=
  let p1 := p.brakeWhenObjectDetected
  let p2 := p1.acc
  let p3 := p2.brk
  let p4 := p3.automaticHeadLights
  let p5 := p4.automaticallyChangeLane
  let p6 := p5.automaticaHighBeams
  let p7 := p6.automaticWindshieldWipers
  p7.gearControl

/-! ### Updating the display -/

def automaticObjectDetection (p : Planning) : Planning :=
  { p with display := { status := { p.display.status with
      cars_in_front := decide (p.sensorsAndCameras.distanceInFront < 100)
      cars_in_back := decide (p.sensorsAndCameras.distanceBehind < 20)
      cars_on_left := p.sensorsAndCameras.objectLeft
      cars_on_right := p.sensorsAndCameras.objectRight } } }

def wipersOn (p : Planning) : Planning :=
  { p with display := { status := { p.display.status with
      wipers_on := p.vehicleControl.windshieldWipers } } }

def headlightLevel (p : Planning) : Planning :=
  { p with display := { status := { p.display.status with
      headlights := p.vehicleControl.headlightLevel } } }

def currentSpeed (p : Planning) : Planning :=
  { p with display := { status := { p.display.status with
      speed := castToInt p.imu.currentVelocity } } }

def automaticRearCamera (p : Planning) : Planning :=
  { p with display := { status := { p.display.status with
      rear_view := decide (p.vehicleControl.gear = 1 ∧ p.imu.currentVelocity ≤ 0) } } }

def checkLanes (p : Planning) : Planning :=
  { p with display := { status := { p.display.status with lane := p.gps.laneNumber } } }

def checkTurn (p : Planning) : Planning :=
  { p with display := { status := { p.display.status with
      leftTurn := decide (p.vehicleControl.turnSignal = -1)
      rightTurn := decide (p.vehicleControl.turnSignal = 1) } } }

def detectLaneDeparture (p : Planning) : Planning :=
  if p.imu.currentVelocity ≠ 0 ∧ p.gps.isOnUnregisteredRoad = false then
    let p1 : Planning :=
      if p.scanners.distanceFromLineLeft ≤ 0 then
        { p with display := { status := { p.display.status with lane_warning := 0 } } }
      else p
    if p1.scanners.distanceFromLineRight ≤ 0 then
      { p1 with display := { status := { p1.display.status with lane_warning := 1 } } }
    else p1
  else p

def checkGear (p : Planning) : Planning :=
  { p with display := { status := { p.display.status with gear := p.vehicleControl.gear } } }

def checkCC (p : Planning) : Planning :=
  { p with display := { status := { p.display.status with
      cruise_control_active := p.vehicleControl.ccActive } } }

def checkWarnings (p : Planning) : Planning :=
  if p.vehicleControl.turnSignal = 0
      ∨ (p.vehicleControl.turnSignal = -1 ∧ p.sensorsAndCameras.objectLeft = false)
      ∨ (p.vehicleControl.turnSignal = 1 ∧ p.sensorsAndCameras.objectRight = false) then
    { p with display := { status := { p.display.status with lane_warning := -1 } } }
  else if p.vehicleControl.turnSignal = -1 ∧ p.sensorsAndCameras.objectLeft = true then
    { p with display := { status := { p.display.status with lane_warning := 0 } } }
  else if p.vehicleControl.turnSignal = 1 ∧ p.sensorsAndCameras.objectRight = true then
    { p with display := { status := { p.display.status with lane_warning := 1 } } }
  else p

/-- Recomputation of the snapshot, in the order of the source. -/
def updateDisplay (p : Planning) : Planning :=
  let p1 := p.checkGear
  let p2 := p1.checkTurn
  let p3 := p2.checkLanes
  let p4 := p3.automaticObjectDetection
  let p5 := p4.wipersOn
  let p6 := p5.headlightLevel
  let p7 := p6.currentSpeed
  let p8 := p7.detectLaneDeparture
  let p9 := p8.automaticRearCamera
  let p10 := p9.checkWarnings
  p10.checkCC

/-- One iteration of the loop of `run_systems` up to the rendering:
`check_all(); updateDisplay();`. -/
def tick (p : Planning) : Planning := p.check_all.updateDisplay

/-! ### Vehicle inputs of `run_systems`

Each function is the body of one `case` of the `switch` on the vehicle input,
applied to the value `val` read from the console. -/

/-- The guard of vehicle input `case 1`: when it holds the `case` leaves by its
first `break`, before any assignment. -/
def brakeRejected (p : Planning) (val : Int) : Bool :=
  decide (((p.vehicleControl.gear = 3 ∧ val < 0) ∨ (val : ℚ) > p.imu.currentVelocity)
    ∨ (p.vehicleControl.gear = 1 ∧ val > 0)
    ∨ p.vehicleControl.gear = 0)

/-- Vehicle input `case 1` (apply brake) with the speed `val`. -/
def vehicleInputBrake (p : Planning) (val : Int) : Planning :=
  if p.brakeRejected val = true then p
  else { p with wantsToBrk := true, wantsToAcc := false, speed_wanted := val }

/-- The guard of vehicle input `case 2`: when it holds the `case` leaves by its
first `break`, before any assignment. -/
def accelerateRejected (p : Planning) (val : Int) : Bool :=
  decide ((p.vehicleControl.gear = 3 ∧ val < 0)
    ∨ (p.vehicleControl.gear = 1 ∧ val > 0)
    ∨ p.vehicleControl.gear = 0)

/-- Vehicle input `case 2` (accelerate) with the speed `val`. -/
def vehicleInputAccelerate (p : Planning) (val : Int) : Planning :=
  if p.accelerateRejected val = true then p
  else { p with wantsToAcc := true, wantsToBrk := false, speed_wanted := val }

/-- Vehicle input `case 3` (change gear) with the gear `val`. -/
def vehicleInputGear (p : Planning) (val : Int) : Planning :=
  if p.imu.currentVelocity < -5 ∨ p.imu.currentVelocity > 5 then p
  else if val = 0 ∨ val = 1 ∨ val = 3 then { p with vehicleControl := p.vehicleControl.setGear val }
  else p

/-- Vehicle input `case 4` (turn signal) with the direction `val`. -/
def vehicleInputTurn (p : Planning) (val : Int) : Planning :=
  if val < 0 then { p with vehicleControl := p.vehicleControl.leftTurnSignal }
  else if val > 0 then { p with vehicleControl := p.vehicleControl.rightTurnSignal }
  else p

/-- Vehicle input `case 0` (default): velocity and navigation are rebuilt. -/
def vehicleInputDefault (p : Planning) : Planning :=
  { p with imu := IMU.mk1 60, gps := GPS.mk4 true false 4 2 }

end Planning

/-! ## Reference definitions and sample states -/

/-- Decay factor of `brake` for the intensities 1, 2 and 3, as the specification
gives it. -/
def brakeFactor (intensity : Int) : ℚ :=
  if intensity = 1 then 95 / 100 else if intensity = 2 then 90 / 100 else 85 / 100

/-- Growth of the front distance by `brake` for the intensities 1, 2 and 3, as
the specification gives it. -/
def brakeMargin (intensity : Int) : ℚ :=
  if intensity = 1 then 10 else if intensity = 2 then 15 else 20

/-- Reference definition of `brake`, written from the specification and not from
the code: the new velocity and the new front distance, for gear Drive or Neutral
(first branch) and for gear Reverse with a velocity under 5 (second branch). -/
def brakeReference (gear : Int) (v dFront : ℚ) (intensity : Int) : ℚ × ℚ :=
  if gear = 3 ∨ gear = 2 then
    if brakeFactor intensity * v < 5 then (0, dFront)
    else (brakeFactor intensity * v, dFront + brakeMargin intensity)
  else
    if brakeFactor intensity * v ≤ -5 then (brakeFactor intensity * v, dFront)
    else (0, dFront)

/-- The state built by `Planning()`, with no pending intent. -/
def startState : Planning := Planning.mk0 false false 0

/-- The start state put in gear Reverse and moving backwards at 20 mph; the
cruise-control flag is still set, as it is between a gear change and the next tick. -/
def reversingState : Planning :=
  { startState with
    vehicleControl := { startState.vehicleControl with gear := 1 }
    imu := { currentVelocity := -20 } }

/-- Scenario A: velocity 60, gear Drive, a vehicle 15 in front. -/
def scenarioA : Planning :=
  { startState with
    sensorsAndCameras := { startState.sensorsAndCameras with distanceInFront := 15 } }

/-- The start state with a vehicle 50 in front. -/
def obstacleAt50 : Planning :=
  { startState with
    sensorsAndCameras := { startState.sensorsAndCameras with distanceInFront := 50 } }

/-- The start state with a vehicle exactly 100 in front. -/
def obstacleAt100 : Planning :=
  { startState with
    sensorsAndCameras := { startState.sensorsAndCameras with distanceInFront := 100 } }

/-- The start state with a vehicle 50 in front and a pending intent to accelerate
to 80. -/
def acceleratingAtObstacle : Planning :=
  { obstacleAt50 with wantsToAcc := true, speed_wanted := 80 }

/-- A stationary vehicle in Drive, 50 behind another one, that was told to
accelerate to 30. -/
def stoppedBehindObstacle : Planning :=
  { startState with
    vehicleControl := { startState.vehicleControl with ccActive := false }
    imu := { currentVelocity := 0 }
    sensorsAndCameras := { startState.sensorsAndCameras with distanceInFront := 50 }
    wantsToAcc := true
    speed_wanted := 30 }

/-- Reference definition of the pending-acceleration step, written from the
specification and not from the code: the new velocity, front distance and rear
distance, for gear Drive (first branch) and for gear Reverse (second branch). -/
def accelerateReference (gear : Int) (v dFront dBehind : ℚ) (target : Int) : ℚ × ℚ × ℚ :=
  if gear = 3 then
    (min (target : ℚ) (if v ≤ 10 then 12 else 110 / 100 * v), dFront - 10, dBehind + 10)
  else
    (max (target : ℚ) (if v ≥ -10 then -12 else 110 / 100 * v), dFront + 10, dBehind)

/-- Reference definition of the velocity after `brakeTo(target)` in gear Drive,
written from the specification and not from the code. -/
def brakeToReference (v : ℚ) (target : Int) : ℚ :=
  max (target : ℚ) (if 90 / 100 * v ≥ 5 then 90 / 100 * v else 0)

/-- What can happen to the pending intents in the loop of `run_systems`: a brake
command, an accelerate command, or a tick. -/
inductive IntentEvent where
  | brakeTo (target : Int)
  | accelerateTo (target : Int)
  | tick
deriving DecidableEq

/-- One event of the loop of `run_systems`. A vehicle input is followed by
`updateDisplay()`, a tick is `check_all(); updateDisplay();`. -/
def Planning.stepEvent (p : Planning) : IntentEvent → Planning
  | IntentEvent.brakeTo target => (p.vehicleInputBrake target).updateDisplay
  | IntentEvent.accelerateTo target => (p.vehicleInputAccelerate target).updateDisplay
  | IntentEvent.tick => p.tick

/-- A finite sequence of events, applied from left to right. -/
def Planning.runEvents (p : Planning) (events : List IntentEvent) : Planning :=
  events.foldl Planning.stepEvent p

/-- The start state with a pending intent to accelerate to 80. -/
def acceleratingState : Planning :=
  { startState with wantsToAcc := true, speed_wanted := 80 }

/-- The start state with a pending intent to brake to 30. -/
def brakingState : Planning :=
  { startState with wantsToBrk := true, speed_wanted := 30 }

/-- Scenario C: light level 30, no rain, velocity 40, nothing within 150 in front,
headlights on Low. -/
def scenarioC : Planning :=
  { startState with
    vehicleControl := { startState.vehicleControl with headlightLevel := 1 }
    imu := { currentVelocity := 40 }
    sensorsAndCameras := { startState.sensorsAndCameras with
      lightLevel := 30, distanceInFront := 150 } }

/-- Scenario D: turn signal Left, an object on the left, 3 lanes, lane 2, cruise
control active, velocity 30. -/
def scenarioD : Planning :=
  { startState with
    vehicleControl := { startState.vehicleControl with turnSignal := -1 }
    imu := { currentVelocity := 30 }
    gps := GPS.mk4 true false 3 2
    sensorsAndCameras := { startState.sensorsAndCameras with objectLeft := true } }

/-- Scenario D at velocity 3 with a vehicle 50 in front: obstacle braking stops the
vehicle before the lane-change policy runs. -/
def scenarioDSlow : Planning :=
  { scenarioD with
    imu := { currentVelocity := 3 }
    sensorsAndCameras := { scenarioD.sensorsAndCameras with distanceInFront := 50 } }

/-- The start state with the turn signal set to Left and a free lane on the left. -/
def signalLeftFree : Planning :=
  { startState with vehicleControl := { startState.vehicleControl with turnSignal := -1 } }

/-- The start state with the vehicle on its left lane line (distance 0), the right
line 3 away, and no turn signal. -/
def driftingLeft : Planning :=
  { startState with scanners := Scanners.mk4 12 3 0 true }

/-! ## The loop of `run_systems` -/

/-- The `switch` on the environment input of `run_systems`, applied to the input
number and to the value `val` read from the console. Input -1 ends the process
(`exit(0)`), so no later state exists; it is modelled like every other unlisted
input, which leaves the state unchanged. -/
def Planning.environmentInput (p : Planning) (input val : Int) : Planning :=
  if input = 0 then { p with sensorsAndCameras := SensorsAndCameras.mk0 }
  else if input = 1 then
    { p with sensorsAndCameras := { p.sensorsAndCameras with distanceInFront := val } }
  else if input = 2 then
    { p with sensorsAndCameras := { p.sensorsAndCameras with distanceBehind := val } }
  else if input = 3 then
    if val < 0 then
      { p with sensorsAndCameras := { p.sensorsAndCameras with objectLeft := true } }
    else if val > 0 then
      { p with sensorsAndCameras := { p.sensorsAndCameras with objectRight := true } }
    else
      { p with sensorsAndCameras :=
          { p.sensorsAndCameras with objectLeft := false, objectRight := false } }
  else if input = 4 then
    { p with sensorsAndCameras :=
        { p.sensorsAndCameras with lightLevel := if val < 0 then 0 else val } }
  else if input = 5 then
    { p with sensorsAndCameras := { p.sensorsAndCameras with rainDetected := decide (val > 0) } }
  else p

/-- The `switch` on the vehicle input of `run_systems`, applied to the input number
and to the value `val` read from the console. Input -1 ends the process (`exit(0)`);
it is modelled like every other unlisted input, which leaves the state unchanged. -/
def Planning.vehicleInput (p : Planning) (input val : Int) : Planning :=
  if input = 0 then p.vehicleInputDefault
  else if input = 1 then p.vehicleInputBrake val
  else if input = 2 then p.vehicleInputAccelerate val
  else if input = 3 then p.vehicleInputGear val
  else if input = 4 then p.vehicleInputTurn val
  else p

/-- What can happen in the loop of `run_systems`: a tick, an environment input or a
vehicle input. -/
inductive LoopEvent where
  | tick
  | environment (input val : Int)
  | vehicle (input val : Int)
deriving DecidableEq

/-- One event of the loop of `run_systems`. A tick is `check_all(); updateDisplay();`,
an input is followed by `updateDisplay()`. -/
def Planning.stepLoop (p : Planning) : LoopEvent → Planning
  | LoopEvent.tick => p.tick
  | LoopEvent.environment input val => (p.environmentInput input val).updateDisplay
  | LoopEvent.vehicle input val => (p.vehicleInput input val).updateDisplay

/-- A finite sequence of loop events, applied from left to right. -/
def Planning.runLoop (p : Planning) (events : List LoopEvent) : Planning :=
  events.foldl Planning.stepLoop p

/-- The state after `n` consecutive ticks with no input in between. -/
def Planning.ticks (p : Planning) : Nat → Planning
  | 0 => p
  | n + 1 => p.tick.ticks n

/-- The mutators of `GPS`. -/
inductive GPSOp where
  | setOnHighway
  | setOnLocalRoad
  | setOnUnregisteredRoad
  | setNumberOfLanes (num : Int)
  | setLaneNumber (lane : Int)
deriving DecidableEq

/-- One mutator call on a `GPS`. -/
def GPS.applyOp (g : GPS) : GPSOp → GPS
  | GPSOp.setOnHighway => g.setOnHighway
  | GPSOp.setOnLocalRoad => g.setOnLocalRoad
  | GPSOp.setOnUnregisteredRoad => g.setOnUnregisteredRoad
  | GPSOp.setNumberOfLanes num => g.setNumberOfLanes num
  | GPSOp.setLaneNumber lane => g.setLaneNumber lane

/-- A finite sequence of mutator calls on a `GPS`, applied from left to right. -/
def GPS.applyOps (g : GPS) (ops : List GPSOp) : GPS :=
  ops.foldl GPS.applyOp g

/-- The start state at velocity 48.6. -/
def cruisingAt48point6 : Planning :=
  { startState with imu := { currentVelocity := 486 / 10 } }

/-- The start state with cruise control switched off. -/
def cruiseOffState : Planning :=
  { startState with vehicleControl := { startState.vehicleControl with ccActive := false } }

/-! # Theorems -/

open Planning

/-! ## Frame lemmas: what each policy leaves alone -/

namespace VehicleControl

@[simp] theorem turnOnHeadLights_gear (vc : VehicleControl) (l : Int) :
    (vc.turnOnHeadLights l).gear = vc.gear := by
  unfold turnOnHeadLights; simp only []; split_ifs <;> rfl

@[simp] theorem turnOnHeadLights_ccActive (vc : VehicleControl) (l : Int) :
    (vc.turnOnHeadLights l).ccActive = vc.ccActive := by
  unfold turnOnHeadLights; simp only []; split_ifs <;> rfl

@[simp] theorem turnOnHeadLights_turnSignal (vc : VehicleControl) (l : Int) :
    (vc.turnOnHeadLights l).turnSignal = vc.turnSignal := by
  unfold turnOnHeadLights; simp only []; split_ifs <;> rfl

@[simp] theorem turnOnHeadLights_windshieldWipers (vc : VehicleControl) (l : Int) :
    (vc.turnOnHeadLights l).windshieldWipers = vc.windshieldWipers := by
  unfold turnOnHeadLights; simp only []; split_ifs <;> rfl

@[simp] theorem startCC_gear (vc : VehicleControl) (imu : IMU) (gps : GPS) :
    (vc.startCC imu gps).gear = vc.gear := by
  unfold startCC; split_ifs <;> rfl

@[simp] theorem stopCC_gear (vc : VehicleControl) : vc.stopCC.gear = vc.gear := rfl

@[simp] theorem brake_distanceBehind (vc : VehicleControl) (imu : IMU) (sc : SensorsAndCameras)
    (i : Int) : (vc.brake imu sc i).2.distanceBehind = sc.distanceBehind := by
  unfold brake; simp only []; split_ifs <;> rfl

end VehicleControl

namespace Planning

@[simp] theorem callBrake_vehicleControl (p : Planning) (i : Int) :
    (p.callBrake i).vehicleControl = p.vehicleControl := rfl

@[simp] theorem callBrakeTo_vehicleControl (p : Planning) (s : Int) :
    (p.callBrakeTo s).vehicleControl = p.vehicleControl := rfl

@[simp] theorem callAccelerateTo_vehicleControl (p : Planning) (s : Int) :
    (p.callAccelerateTo s).vehicleControl = p.vehicleControl := rfl

@[simp] theorem brakeWhenObjectDetected_vehicleControl (p : Planning) :
    p.brakeWhenObjectDetected.vehicleControl = p.vehicleControl := by
  unfold brakeWhenObjectDetected; split_ifs <;> rfl

@[simp] theorem acc_vehicleControl (p : Planning) : p.acc.vehicleControl = p.vehicleControl := by
  unfold acc; simp only []; split_ifs <;> rfl

@[simp] theorem brk_vehicleControl (p : Planning) : p.brk.vehicleControl = p.vehicleControl := by
  unfold brk; simp only []; split_ifs <;> rfl

@[simp] theorem automaticHeadLights_gear (p : Planning) :
    p.automaticHeadLights.vehicleControl.gear = p.vehicleControl.gear := by
  unfold automaticHeadLights; split_ifs <;> simp [VehicleControl.turnOffHeadlights]

@[simp] theorem automaticallyChangeLane_gear (p : Planning) :
    p.automaticallyChangeLane.vehicleControl.gear = p.vehicleControl.gear := by
  unfold automaticallyChangeLane; split_ifs <;> simp [VehicleControl.turnComplete]

@[simp] theorem automaticaHighBeams_gear (p : Planning) :
    p.automaticaHighBeams.vehicleControl.gear = p.vehicleControl.gear := by
  unfold automaticaHighBeams; split_ifs <;> simp

@[simp] theorem automaticWindshieldWipers_gear (p : Planning) :
    p.automaticWindshieldWipers.vehicleControl.gear = p.vehicleControl.gear := by
  unfold automaticWindshieldWipers; split_ifs <;> simp [VehicleControl.turnOnWindshieldWipers]

@[simp] theorem gearControl_gear (p : Planning) :
    p.gearControl.vehicleControl.gear = p.vehicleControl.gear := by
  unfold gearControl; simp only []
  split_ifs <;> simp

/-- The tick never changes the gear. -/
theorem check_all_gear (p : Planning) :
    p.check_all.vehicleControl.gear = p.vehicleControl.gear := by
  simp [check_all]

/-- Outside Drive, `gearControl` leaves cruise control off. -/
theorem gearControl_ccActive_off (p : Planning)
    (hg : p.vehicleControl.gear = 0 ∨ p.vehicleControl.gear = 1 ∨ p.vehicleControl.gear = 2) :
    p.gearControl.vehicleControl.ccActive = false := by
  unfold gearControl; simp only []
  split_ifs <;> simp_all [VehicleControl.stopCC, VehicleControl.startCC]

/-- After `gearControl` the velocity has the sign that the gear allows. -/
theorem gearControl_velocity (p : Planning) :
    (p.vehicleControl.gear = 0 → p.gearControl.imu.currentVelocity = 0)
    ∧ (p.vehicleControl.gear = 1 → p.gearControl.imu.currentVelocity ≤ 0)
    ∧ (p.vehicleControl.gear = 3 → 0 ≤ p.gearControl.imu.currentVelocity) := by
  unfold gearControl; simp only []
  refine ⟨fun h0 => ?_, fun h1 => ?_, fun h3 => ?_⟩
  · split_ifs <;> simp_all [VehicleControl.stopCC, VehicleControl.startCC]
  · split_ifs <;> simp_all [VehicleControl.stopCC, VehicleControl.startCC]
  · split_ifs <;> simp_all [VehicleControl.stopCC, VehicleControl.startCC]


/-! ## Gear, cruise control and velocity after a tick -/

/-- C1: for every state whose gear is Park (0), Reverse (1), Neutral (2) or Drive (3),
whatever the velocity, the perception and the pending intents, after one tick
(`check_all`) the cruise-control flag is false whenever the gear is not Drive. -/
theorem check_all_cruise_off_outside_drive (p : Planning)
    (hg : p.vehicleControl.gear = 0 ∨ p.vehicleControl.gear = 1
      ∨ p.vehicleControl.gear = 2 ∨ p.vehicleControl.gear = 3)
    (hnd : p.check_all.vehicleControl.gear ≠ 3) :
    p.check_all.vehicleControl.ccActive = false := by
  rw [check_all_gear] at hnd
  have hg3 : p.vehicleControl.gear = 0 ∨ p.vehicleControl.gear = 1
      ∨ p.vehicleControl.gear = 2 := by
    rcases hg with h | h | h | h
    · exact Or.inl h
    · exact Or.inr (Or.inl h)
    · exact Or.inr (Or.inr h)
    · exact absurd h hnd
  unfold check_all
  apply gearControl_ccActive_off
  simpa using hg3

/-- Witness of C1: the reversing state, in gear Reverse with the cruise-control
flag still set before the tick. -/
theorem check_all_cruise_off_outside_drive_witness :
    reversingState.check_all.vehicleControl.gear ≠ 3
      ∧ reversingState.check_all.vehicleControl.ccActive = false :=
  ⟨by decide!, check_all_cruise_off_outside_drive reversingState (by decide!) (by decide!)⟩

/-- C2: for every state, after one tick (`check_all`) the velocity is consistent
with the gear: Park (0) gives velocity exactly 0, Reverse (1) gives velocity at
most 0 and Drive (3) gives velocity at least 0. -/
theorem check_all_velocity_consistent_with_gear (p : Planning) :
    (p.check_all.vehicleControl.gear = 0 → p.check_all.imu.currentVelocity = 0)
    ∧ (p.check_all.vehicleControl.gear = 1 → p.check_all.imu.currentVelocity ≤ 0)
    ∧ (p.check_all.vehicleControl.gear = 3 → 0 ≤ p.check_all.imu.currentVelocity) := by
  have h := gearControl_velocity
    p.brakeWhenObjectDetected.acc.brk.automaticHeadLights.automaticallyChangeLane.automaticaHighBeams.automaticWindshieldWipers
  rw [check_all_gear]
  simpa [check_all] using h

end Planning

/-! ## Lane range -/

/-- The constructor `GPS(H, L, num_lanes, lane)` puts the lane in range. -/
theorem GPS.mk4_lane_in_range (H L : Bool) (num_lanes lane : Int) :
    1 ≤ (GPS.mk4 H L num_lanes lane).laneNumber
    ∧ (GPS.mk4 H L num_lanes lane).laneNumber ≤ (GPS.mk4 H L num_lanes lane).numberOfLanes := by
  unfold GPS.mk4; simp only []
  split_ifs <;> omega

/-- The setter `setLaneNumber` keeps the lane in range and the lane count. -/
theorem GPS.setLaneNumber_lane_in_range (g : GPS) (lane : Int)
    (h : 1 ≤ g.laneNumber ∧ g.laneNumber ≤ g.numberOfLanes) :
    1 ≤ (g.setLaneNumber lane).laneNumber
    ∧ (g.setLaneNumber lane).laneNumber ≤ (g.setLaneNumber lane).numberOfLanes := by
  unfold GPS.setLaneNumber
  split_ifs with hc
  · simp only []; omega
  · exact h

/-- C3 (failing input): a GPS built with 4 lanes and lane 4 is in range, and after
`setNumberOfLanes(2)` the lane is still 4 while the lane count is 2, so the lane
is outside `[1, numberOfLanes]`: the setter does not clamp the lane, unlike the
constructor. -/
theorem setNumberOfLanes_leaves_lane_out_of_range :
    (GPS.mk4 true false 4 4).laneNumber = 4
    ∧ (GPS.mk4 true false 4 4).numberOfLanes = 4
    ∧ ((GPS.mk4 true false 4 4).setNumberOfLanes 2).laneNumber = 4
    ∧ ((GPS.mk4 true false 4 4).setNumberOfLanes 2).numberOfLanes = 2
    ∧ ¬ (((GPS.mk4 true false 4 4).setNumberOfLanes 2).laneNumber
          ≤ ((GPS.mk4 true false 4 4).setNumberOfLanes 2).numberOfLanes) := by
  decide

/-! ## The braking policy -/

/-- C8: `brake(intensity)` equals its reference definition. For intensity 1, 2 or 3,
in gear Drive (3) or Neutral (2), or in gear Reverse (1) with a velocity under 5,
the new velocity and front distance are those of `brakeReference` (factor 0.95,
0.90, 0.85 and margin 10, 15, 20), and nothing else changes: the rear distance
and every actuator field are the same. -/
theorem callBrake_eq_brakeReference (p : Planning) (i : Int)
    (hi : i = 1 ∨ i = 2 ∨ i = 3)
    (hg : p.vehicleControl.gear = 3 ∨ p.vehicleControl.gear = 2
      ∨ (p.vehicleControl.gear = 1 ∧ p.imu.currentVelocity < 5)) :
    p.callBrake i =
      { p with
        imu := { currentVelocity :=
          (brakeReference p.vehicleControl.gear p.imu.currentVelocity
            p.sensorsAndCameras.distanceInFront i).1 }
        sensorsAndCameras := { p.sensorsAndCameras with distanceInFront :=
          (brakeReference p.vehicleControl.gear p.imu.currentVelocity
            p.sensorsAndCameras.distanceInFront i).2 } }
    ∧ (p.callBrake i).sensorsAndCameras.distanceBehind = p.sensorsAndCameras.distanceBehind
    ∧ (p.callBrake i).vehicleControl = p.vehicleControl := by
  refine ⟨?_, by simp [callBrake], rfl⟩
  obtain ⟨vc, imu, sc, gps, sen, d, wa, wb, sw⟩ := p
  obtain ⟨v⟩ := imu
  simp only [callBrake, VehicleControl.brake, brakeReference, brakeFactor, brakeMargin] at hg ⊢
  rcases hi with rfl | rfl | rfl
  · rcases hg with h | h | ⟨h, hv⟩
    · simp [h, mul_comm]; split_ifs <;> simp
    · simp [h, mul_comm]; split_ifs <;> simp
    · simp [h, hv, mul_comm]; split_ifs <;> simp_all
      linarith
  · rcases hg with h | h | ⟨h, hv⟩
    · simp [h, mul_comm]; split_ifs <;> simp
    · simp [h, mul_comm]; split_ifs <;> simp
    · simp [h, hv, mul_comm]; split_ifs <;> simp_all
      linarith
  · rcases hg with h | h | ⟨h, hv⟩
    · simp [h, mul_comm]; split_ifs <;> simp
    · simp [h, mul_comm]; split_ifs <;> simp
    · simp [h, hv, mul_comm]; split_ifs <;> simp_all
      linarith


/-- Witness of C8: the start state with a vehicle 50 in front, braked at intensity 1. -/
theorem callBrake_eq_brakeReference_witness :
    obstacleAt50.callBrake 1 =
      { obstacleAt50 with
        imu := { currentVelocity :=
          (brakeReference obstacleAt50.vehicleControl.gear obstacleAt50.imu.currentVelocity
            obstacleAt50.sensorsAndCameras.distanceInFront 1).1 }
        sensorsAndCameras := { obstacleAt50.sensorsAndCameras with distanceInFront :=
          (brakeReference obstacleAt50.vehicleControl.gear obstacleAt50.imu.currentVelocity
            obstacleAt50.sensorsAndCameras.distanceInFront 1).2 } }
    ∧ (obstacleAt50.callBrake 1).sensorsAndCameras.distanceBehind
        = obstacleAt50.sensorsAndCameras.distanceBehind
    ∧ (obstacleAt50.callBrake 1).vehicleControl = obstacleAt50.vehicleControl :=
  callBrake_eq_brakeReference obstacleAt50 1 (by decide) (by decide!)

/-- Braking a stationary vehicle changes nothing, in every gear. -/
theorem VehicleControl.brake_of_stationary (vc : VehicleControl) (imu : IMU)
    (sc : SensorsAndCameras) (i : Int) (hv : imu.currentVelocity = 0) :
    vc.brake imu sc i = (imu, sc) := by
  obtain ⟨v⟩ := imu
  simp only at hv
  subst hv
  unfold VehicleControl.brake
  simp only []
  split_ifs <;> simp_all

/-- Braking a stationary vehicle changes nothing, stated on the whole state. -/
theorem Planning.callBrake_of_stationary (p : Planning) (i : Int)
    (hv : p.imu.currentVelocity = 0) : p.callBrake i = p := by
  simp [callBrake, VehicleControl.brake_of_stationary _ _ _ _ hv]

/-- C5 (counterexample): with gear Drive and a front distance of exactly 100, which
is in the band `20 < distanceFront <= 100`, obstacle braking leaves the velocity at
60 and the front distance at 100, while `brake(1)` gives 57 and 110. -/
theorem brakeWhenObjectDetected_idle_at_100 :
    obstacleAt100.vehicleControl.gear = 3
    ∧ 20 < obstacleAt100.sensorsAndCameras.distanceInFront
    ∧ obstacleAt100.sensorsAndCameras.distanceInFront ≤ 100
    ∧ obstacleAt100.brakeWhenObjectDetected.imu.currentVelocity = 60
    ∧ obstacleAt100.brakeWhenObjectDetected.sensorsAndCameras.distanceInFront = 100
    ∧ (obstacleAt100.callBrake 1).imu.currentVelocity = 57
    ∧ (obstacleAt100.callBrake 1).sensorsAndCameras.distanceInFront = 110
    ∧ obstacleAt100.brakeWhenObjectDetected.imu ≠ (obstacleAt100.callBrake 1).imu := by
  decide!

/-- C5 (amended): obstacle-braking tier selection. In gear Drive (3) or Neutral (2)
the step changes the velocity and the perception exactly as `brake(intensity)` does,
with intensity 1 when `20 < distanceFront < 100`, 2 when `10 < distanceFront <= 20`
and 3 when `0 < distanceFront <= 10`; in gear Reverse (1) with
`0 < distanceBehind < 20` it acts as `brake(3)`; in every other case (front distance
at most 0 or at least 100 in Drive or Neutral, rear distance at most 0 or at least
20 in Reverse, any other gear) velocity and perception are unchanged. -/
theorem brakeWhenObjectDetected_tiers (p : Planning) :
    ((p.vehicleControl.gear = 3 ∨ p.vehicleControl.gear = 2) →
      20 < p.sensorsAndCameras.distanceInFront → p.sensorsAndCameras.distanceInFront < 100 →
      p.brakeWhenObjectDetected.imu = (p.callBrake 1).imu
      ∧ p.brakeWhenObjectDetected.sensorsAndCameras = (p.callBrake 1).sensorsAndCameras)
    ∧ ((p.vehicleControl.gear = 3 ∨ p.vehicleControl.gear = 2) →
      10 < p.sensorsAndCameras.distanceInFront → p.sensorsAndCameras.distanceInFront ≤ 20 →
      p.brakeWhenObjectDetected.imu = (p.callBrake 2).imu
      ∧ p.brakeWhenObjectDetected.sensorsAndCameras = (p.callBrake 2).sensorsAndCameras)
    ∧ ((p.vehicleControl.gear = 3 ∨ p.vehicleControl.gear = 2) →
      0 < p.sensorsAndCameras.distanceInFront → p.sensorsAndCameras.distanceInFront ≤ 10 →
      p.brakeWhenObjectDetected.imu = (p.callBrake 3).imu
      ∧ p.brakeWhenObjectDetected.sensorsAndCameras = (p.callBrake 3).sensorsAndCameras)
    ∧ (p.vehicleControl.gear = 1 →
      0 < p.sensorsAndCameras.distanceBehind → p.sensorsAndCameras.distanceBehind < 20 →
      p.brakeWhenObjectDetected.imu = (p.callBrake 3).imu
      ∧ p.brakeWhenObjectDetected.sensorsAndCameras = (p.callBrake 3).sensorsAndCameras)
    ∧ ((p.vehicleControl.gear = 3 ∨ p.vehicleControl.gear = 2) →
      (p.sensorsAndCameras.distanceInFront ≤ 0 ∨ 100 ≤ p.sensorsAndCameras.distanceInFront) →
      p.brakeWhenObjectDetected.imu = p.imu
      ∧ p.brakeWhenObjectDetected.sensorsAndCameras = p.sensorsAndCameras)
    ∧ (p.vehicleControl.gear = 1 →
      (p.sensorsAndCameras.distanceBehind ≤ 0 ∨ 20 ≤ p.sensorsAndCameras.distanceBehind) →
      p.brakeWhenObjectDetected.imu = p.imu
      ∧ p.brakeWhenObjectDetected.sensorsAndCameras = p.sensorsAndCameras)
    ∧ (p.vehicleControl.gear ≠ 1 → p.vehicleControl.gear ≠ 2 → p.vehicleControl.gear ≠ 3 →
      p.brakeWhenObjectDetected.imu = p.imu
      ∧ p.brakeWhenObjectDetected.sensorsAndCameras = p.sensorsAndCameras) := by
  by_cases hv : p.imu.currentVelocity = 0
  · have hb : ∀ i, p.callBrake i = p := fun i => callBrake_of_stationary p i hv
    have hq : p.brakeWhenObjectDetected = p := by
      unfold brakeWhenObjectDetected
      split_ifs <;> simp_all
    simp [hb, hq]
  · unfold brakeWhenObjectDetected
    refine ⟨?_, ?_, ?_, ?_, ?_, ?_, ?_⟩
    · intro hg h1 h2
      have hg2 : p.vehicleControl.gear = 2 ∨ p.vehicleControl.gear = 3 := hg.symm
      simp [hg2, hv, h1, h2]
    · intro hg h1 h2
      have hg2 : p.vehicleControl.gear = 2 ∨ p.vehicleControl.gear = 3 := hg.symm
      have h3 : ¬ (20 < p.sensorsAndCameras.distanceInFront) := not_lt.mpr h2
      simp [hg2, hv, h1, h2, h3]
    · intro hg h1 h2
      have hg2 : p.vehicleControl.gear = 2 ∨ p.vehicleControl.gear = 3 := hg.symm
      have h3 : ¬ (20 < p.sensorsAndCameras.distanceInFront) := by linarith
      have h4 : ¬ (10 < p.sensorsAndCameras.distanceInFront) := not_lt.mpr h2
      simp [hg2, hv, h1, h2, h3, h4]
    · intro hg h1 h2
      simp [hg, hv, h1, h2]
    · intro hg h
      have hg2 : p.vehicleControl.gear = 2 ∨ p.vehicleControl.gear = 3 := hg.symm
      rw [if_pos hg2]
      split_ifs with c1 c2 c3
      · rcases h with h | h <;> linarith [c1.2.1, c1.2.2]
      · rcases h with h | h <;> linarith [c2.2.1, c2.2.2]
      · rcases h with h | h <;> linarith [c3.2.1, c3.2.2]
      · exact ⟨rfl, rfl⟩
    · intro hg h
      have hg2 : ¬ (p.vehicleControl.gear = 2 ∨ p.vehicleControl.gear = 3) := by omega
      rw [if_neg hg2, if_pos hg]
      split_ifs with c1
      · rcases h with h | h <;> linarith [c1.2.1, c1.2.2]
      · exact ⟨rfl, rfl⟩
    · intro h1 h2 h3
      have hg2 : ¬ (p.vehicleControl.gear = 2 ∨ p.vehicleControl.gear = 3) := by omega
      rw [if_neg hg2, if_neg h1]
      exact ⟨rfl, rfl⟩

/-! ## Obstacle braking against a pending acceleration -/

/-- Without an accelerate intent the pending-acceleration step does nothing. -/
theorem Planning.acc_of_no_intent (p : Planning) (h : p.wantsToAcc = false) : p.acc = p := by
  unfold acc; simp [h]

/-- Without a brake intent the pending-braking step does nothing. -/
theorem Planning.brk_of_no_intent (p : Planning) (h : p.wantsToBrk = false) : p.brk = p := by
  unfold brk; simp [h]

/-- C6 (counterexample): a stationary vehicle in Drive with a vehicle 50 in front and
a pending accelerate intent keeps the intent through obstacle braking, and the
pending-acceleration step of the same tick raises the velocity from 0 to 12. -/
theorem brakeWhenObjectDetected_keeps_intent_when_stationary :
    stoppedBehindObstacle.vehicleControl.gear = 3
    ∧ 0 < stoppedBehindObstacle.sensorsAndCameras.distanceInFront
    ∧ stoppedBehindObstacle.sensorsAndCameras.distanceInFront ≤ 100
    ∧ stoppedBehindObstacle.brakeWhenObjectDetected.wantsToAcc = true
    ∧ stoppedBehindObstacle.brakeWhenObjectDetected.imu.currentVelocity = 0
    ∧ stoppedBehindObstacle.brakeWhenObjectDetected.acc.imu.currentVelocity = 12 := by
  decide!

/-- C6 (amended): for every moving vehicle (velocity not 0) in gear Drive (3) or
Neutral (2) with `0 < distanceFront < 100`, after the obstacle-braking step no
accelerate intent is pending, so the pending-acceleration step of the same tick
leaves the state, and with it the velocity, unchanged. -/
theorem brakeWhenObjectDetected_clears_accelerate_intent (p : Planning)
    (hg : p.vehicleControl.gear = 3 ∨ p.vehicleControl.gear = 2)
    (hv : p.imu.currentVelocity ≠ 0)
    (h0 : 0 < p.sensorsAndCameras.distanceInFront)
    (h100 : p.sensorsAndCameras.distanceInFront < 100) :
    p.brakeWhenObjectDetected.wantsToAcc = false
    ∧ p.brakeWhenObjectDetected.acc = p.brakeWhenObjectDetected
    ∧ p.brakeWhenObjectDetected.acc.imu.currentVelocity
        = p.brakeWhenObjectDetected.imu.currentVelocity := by
  have hw : p.brakeWhenObjectDetected.wantsToAcc = false := by
    have hg2 : p.vehicleControl.gear = 2 ∨ p.vehicleControl.gear = 3 := hg.symm
    unfold brakeWhenObjectDetected
    rw [if_pos hg2]
    split_ifs with c1 c2 c3
    · rfl
    · rfl
    · rfl
    · exfalso
      have h20 : p.sensorsAndCameras.distanceInFront ≤ 20 := by
        by_contra hc
        exact c1 ⟨hv, not_le.mp hc, h100⟩
      have h10 : p.sensorsAndCameras.distanceInFront ≤ 10 := by
        by_contra hc
        exact c2 ⟨hv, not_le.mp hc, h20⟩
      exact c3 ⟨hv, h0, h10⟩
  have ha := acc_of_no_intent _ hw
  exact ⟨hw, ha, by rw [ha]⟩

/-- Witness of C6 (amended): the start state told to accelerate to 80 with a
vehicle 50 in front. -/
theorem brakeWhenObjectDetected_clears_accelerate_intent_witness :
    acceleratingAtObstacle.wantsToAcc = true
    ∧ acceleratingAtObstacle.brakeWhenObjectDetected.wantsToAcc = false
    ∧ acceleratingAtObstacle.brakeWhenObjectDetected.acc
        = acceleratingAtObstacle.brakeWhenObjectDetected
    ∧ acceleratingAtObstacle.brakeWhenObjectDetected.acc.imu.currentVelocity
        = acceleratingAtObstacle.brakeWhenObjectDetected.imu.currentVelocity :=
  ⟨by decide!, brakeWhenObjectDetected_clears_accelerate_intent acceleratingAtObstacle
    (by decide!) (by decide!) (by decide!) (by decide!)⟩

/-! ## Command acceptance -/

/-- The guard of the brake command, spelled out: besides Park and the two direction
checks, a target above the current velocity is refused in every gear. -/
theorem Planning.brakeRejected_iff (p : Planning) (val : Int) :
    p.brakeRejected val = true ↔
      (p.vehicleControl.gear = 0 ∨ (p.vehicleControl.gear = 3 ∧ val < 0)
        ∨ (p.vehicleControl.gear = 1 ∧ val > 0) ∨ (val : ℚ) > p.imu.currentVelocity) := by
  unfold brakeRejected
  rw [decide_eq_true_iff]
  tauto

/-- C9 (failing input): in gear Reverse at velocity -20, `BrakeTo(-10)` slows the
vehicle in its direction of travel, yet the guard rejects it and the state is
unchanged, while `BrakeTo(-30)`, whose target exceeds the velocity in the direction
of travel, is accepted and sets the brake intent. -/
theorem vehicleInputBrake_reverse_mismatch :
    reversingState.vehicleControl.gear = 1
    ∧ reversingState.imu.currentVelocity = -20
    ∧ reversingState.brakeRejected (-10) = true
    ∧ reversingState.vehicleInputBrake (-10) = reversingState
    ∧ reversingState.brakeRejected (-30) = false
    ∧ (reversingState.vehicleInputBrake (-30)).wantsToBrk = true
    ∧ (reversingState.vehicleInputBrake (-30)).speed_wanted = -30 := by
  decide!

/-- C10: `AccelerateTo(target)` is rejected if and only if the gear is Park (0), or
the target is negative in Drive (3), or the target is positive in Reverse (1); a
rejected command leaves the whole state unchanged; an accepted one sets the
accelerate intent with that target, clears the brake intent and changes nothing
else. -/
theorem vehicleInputAccelerate_acceptance (p : Planning) (target : Int) :
    (p.accelerateRejected target = true ↔
      (p.vehicleControl.gear = 0 ∨ (p.vehicleControl.gear = 3 ∧ target < 0)
        ∨ (p.vehicleControl.gear = 1 ∧ target > 0)))
    ∧ (p.accelerateRejected target = true → p.vehicleInputAccelerate target = p)
    ∧ (p.accelerateRejected target = false →
        p.vehicleInputAccelerate target
          = { p with wantsToAcc := true, wantsToBrk := false, speed_wanted := target }) := by
  refine ⟨?_, ?_, ?_⟩
  · unfold accelerateRejected
    rw [decide_eq_true_iff]
    tauto
  · intro h
    simp [vehicleInputAccelerate, h]
  · intro h
    simp [vehicleInputAccelerate, h]

/-! ## Velocity and distances through the rest of the tick -/

namespace Planning

@[simp] theorem automaticHeadLights_imu (p : Planning) : p.automaticHeadLights.imu = p.imu := by
  unfold automaticHeadLights; split_ifs <;> rfl

@[simp] theorem automaticHeadLights_sensorsAndCameras (p : Planning) :
    p.automaticHeadLights.sensorsAndCameras = p.sensorsAndCameras := by
  unfold automaticHeadLights; split_ifs <;> rfl

@[simp] theorem automaticallyChangeLane_imu (p : Planning) :
    p.automaticallyChangeLane.imu = p.imu := by
  unfold automaticallyChangeLane; split_ifs <;> rfl

@[simp] theorem automaticallyChangeLane_distanceInFront (p : Planning) :
    p.automaticallyChangeLane.sensorsAndCameras.distanceInFront
      = p.sensorsAndCameras.distanceInFront := by
  unfold automaticallyChangeLane; split_ifs <;> rfl

@[simp] theorem automaticallyChangeLane_distanceBehind (p : Planning) :
    p.automaticallyChangeLane.sensorsAndCameras.distanceBehind
      = p.sensorsAndCameras.distanceBehind := by
  unfold automaticallyChangeLane; split_ifs <;> rfl

@[simp] theorem automaticaHighBeams_imu (p : Planning) : p.automaticaHighBeams.imu = p.imu := by
  unfold automaticaHighBeams; split_ifs <;> rfl

@[simp] theorem automaticaHighBeams_sensorsAndCameras (p : Planning) :
    p.automaticaHighBeams.sensorsAndCameras = p.sensorsAndCameras := by
  unfold automaticaHighBeams; split_ifs <;> rfl

@[simp] theorem automaticWindshieldWipers_imu (p : Planning) :
    p.automaticWindshieldWipers.imu = p.imu := by
  unfold automaticWindshieldWipers; split_ifs <;> rfl

@[simp] theorem automaticWindshieldWipers_sensorsAndCameras (p : Planning) :
    p.automaticWindshieldWipers.sensorsAndCameras = p.sensorsAndCameras := by
  unfold automaticWindshieldWipers; split_ifs <;> rfl

@[simp] theorem gearControl_sensorsAndCameras (p : Planning) :
    p.gearControl.sensorsAndCameras = p.sensorsAndCameras := by
  unfold gearControl; simp only []; split_ifs <;> rfl

/-- In Drive with a velocity that is not negative, `gearControl` keeps the velocity. -/
theorem gearControl_imu_of_drive (p : Planning) (hg : p.vehicleControl.gear = 3)
    (hv : 0 ≤ p.imu.currentVelocity) : p.gearControl.imu = p.imu := by
  have h : ¬ p.imu.currentVelocity < 0 := not_lt.mpr hv
  unfold gearControl; simp only []
  split_ifs <;> simp_all

/-- The lane-departure check writes the lane warning only, and only for a moving
vehicle on a registered road with a line distance at most 0. -/
theorem detectLaneDeparture_eq (p : Planning) :
    p.detectLaneDeparture = { p with display := { status := { p.display.status with
      lane_warning :=
        if p.imu.currentVelocity ≠ 0 ∧ p.gps.isOnUnregisteredRoad = false then
          if p.scanners.distanceFromLineRight ≤ 0 then 1
          else if p.scanners.distanceFromLineLeft ≤ 0 then 0
          else p.display.status.lane_warning
        else p.display.status.lane_warning } } } := by
  unfold detectLaneDeparture
  simp only []
  split_ifs <;> rfl

/-- The turn-signal warning writes the lane warning only, whenever the signal is
-1, 0 or 1. -/
theorem checkWarnings_eq (p : Planning) :
    p.checkWarnings = { p with display := { status := { p.display.status with
      lane_warning :=
        if p.vehicleControl.turnSignal = 0
            ∨ (p.vehicleControl.turnSignal = -1 ∧ p.sensorsAndCameras.objectLeft = false)
            ∨ (p.vehicleControl.turnSignal = 1 ∧ p.sensorsAndCameras.objectRight = false)
        then -1
        else if p.vehicleControl.turnSignal = -1 ∧ p.sensorsAndCameras.objectLeft = true then 0
        else if p.vehicleControl.turnSignal = 1 ∧ p.sensorsAndCameras.objectRight = true then 1
        else p.display.status.lane_warning } } } := by
  unfold checkWarnings
  split_ifs <;> rfl

/-- The state after `updateDisplay`: only the snapshot is written, field by field.
The lane count of the snapshot is never written; the lane warning is decided by the
turn signal whenever the signal is -1, 0 or 1, and only otherwise by the
lane-departure check. -/
theorem updateDisplay_normal (p : Planning) :
    p.updateDisplay = { p with display := { status :=
      { speed := castToInt p.imu.currentVelocity
        gear := p.vehicleControl.gear
        cruise_control_active := p.vehicleControl.ccActive
        wipers_on := p.vehicleControl.windshieldWipers
        cars_in_front := decide (p.sensorsAndCameras.distanceInFront < 100)
        cars_in_back := decide (p.sensorsAndCameras.distanceBehind < 20)
        cars_on_left := p.sensorsAndCameras.objectLeft
        cars_on_right := p.sensorsAndCameras.objectRight
        lane_warning :=
          if p.vehicleControl.turnSignal = 0
              ∨ (p.vehicleControl.turnSignal = -1 ∧ p.sensorsAndCameras.objectLeft = false)
              ∨ (p.vehicleControl.turnSignal = 1 ∧ p.sensorsAndCameras.objectRight = false)
          then -1
          else if p.vehicleControl.turnSignal = -1 ∧ p.sensorsAndCameras.objectLeft = true then 0
          else if p.vehicleControl.turnSignal = 1 ∧ p.sensorsAndCameras.objectRight = true then 1
          else if p.imu.currentVelocity ≠ 0 ∧ p.gps.isOnUnregisteredRoad = false then
            if p.scanners.distanceFromLineRight ≤ 0 then 1
            else if p.scanners.distanceFromLineLeft ≤ 0 then 0
            else p.display.status.lane_warning
          else p.display.status.lane_warning
        headlights := p.vehicleControl.headlightLevel
        rear_view := decide (p.vehicleControl.gear = 1 ∧ p.imu.currentVelocity ≤ 0)
        lane := p.gps.laneNumber
        num_lanes := p.display.status.num_lanes
        leftTurn := decide (p.vehicleControl.turnSignal = -1)
        rightTurn := decide (p.vehicleControl.turnSignal = 1) } } } := by
  unfold updateDisplay
  simp only [checkWarnings_eq, detectLaneDeparture_eq, checkCC, automaticRearCamera,
    currentSpeed, headlightLevel, wipersOn, automaticObjectDetection, checkLanes, checkTurn,
    checkGear]

/-- The snapshot is the only part of the state that `updateDisplay` writes. -/
theorem updateDisplay_eq (p : Planning) :
    p.updateDisplay = { p with display := p.updateDisplay.display } := by
  rw [updateDisplay_normal p]

@[simp] theorem updateDisplay_imu (p : Planning) : p.updateDisplay.imu = p.imu := by
  rw [updateDisplay_eq]

@[simp] theorem updateDisplay_sensorsAndCameras (p : Planning) :
    p.updateDisplay.sensorsAndCameras = p.sensorsAndCameras := by
  rw [updateDisplay_eq]

/-- The snapshot flag `cars_in_front` reports a front distance under 100. -/
theorem updateDisplay_cars_in_front (p : Planning) :
    p.updateDisplay.display.status.cars_in_front
      = decide (p.sensorsAndCameras.distanceInFront < 100) := by
  rw [updateDisplay_normal p]

end Planning

/-! ## Scenario A -/

/-- C7 (counterexample): in Scenario A (velocity 60, gear Drive, no pending intent,
front distance 15) one tick moves the front distance from 15 to 30: it is not left
unchanged. -/
theorem scenarioA_front_distance_changes :
    scenarioA.vehicleControl.gear = 3
    ∧ scenarioA.wantsToAcc = false ∧ scenarioA.wantsToBrk = false
    ∧ scenarioA.imu.currentVelocity = 60
    ∧ scenarioA.sensorsAndCameras.distanceInFront = 15
    ∧ scenarioA.tick.sensorsAndCameras.distanceInFront = 30
    ∧ scenarioA.tick.sensorsAndCameras.distanceInFront
        ≠ scenarioA.sensorsAndCameras.distanceInFront := by
  decide!

/-- C7 (amended): with gear Drive (3), no pending brake intent (a pending accelerate
intent is cleared by obstacle braking), `10 < distanceFront <= 20` and a velocity `v`
with `0.90 * v >= 5`, one tick leaves the velocity equal to `0.90 * v`, grows the
front distance by 15, and the snapshot has `cars_in_front = true`. -/
theorem tick_intensity_two_braking (p : Planning)
    (hg : p.vehicleControl.gear = 3)
    (hb : p.wantsToBrk = false)
    (h10 : 10 < p.sensorsAndCameras.distanceInFront)
    (h20 : p.sensorsAndCameras.distanceInFront ≤ 20)
    (hv : 5 ≤ p.imu.currentVelocity * (90 / 100)) :
    p.tick.imu.currentVelocity = p.imu.currentVelocity * (90 / 100)
    ∧ p.tick.sensorsAndCameras.distanceInFront = p.sensorsAndCameras.distanceInFront + 15
    ∧ p.tick.display.status.cars_in_front = true := by
  have hv0 : p.imu.currentVelocity ≠ 0 := by
    intro h0
    rw [h0] at hv
    norm_num at hv
  have h5 : ¬ p.imu.currentVelocity * (90 / 100) < 5 := not_lt.mpr hv
  have hn20 : ¬ 20 < p.sensorsAndCameras.distanceInFront := not_lt.mpr h20
  have h1 : p.brakeWhenObjectDetected =
      { p with
        imu := { currentVelocity := p.imu.currentVelocity * (90 / 100) }
        sensorsAndCameras := { p.sensorsAndCameras with
          distanceInFront := p.sensorsAndCameras.distanceInFront + 15 }
        wantsToAcc := false } := by
    simp [brakeWhenObjectDetected, callBrake, VehicleControl.brake, hg, hv0, h10, h20, hn20, h5]
  have h2 : p.brakeWhenObjectDetected.acc.brk = p.brakeWhenObjectDetected := by
    rw [acc_of_no_intent _ (by rw [h1]), brk_of_no_intent _ (by rw [h1]; exact hb)]
  have hvel : p.check_all.imu.currentVelocity = p.imu.currentVelocity * (90 / 100) := by
    unfold check_all
    simp only []
    rw [h2, gearControl_imu_of_drive _ (by simpa using hg) (by simp [h1]; linarith)]
    simp [h1]
  have hdist : p.check_all.sensorsAndCameras.distanceInFront
      = p.sensorsAndCameras.distanceInFront + 15 := by
    unfold check_all
    simp only []
    rw [h2]
    simp [h1]
  refine ⟨by simpa [tick] using hvel, by simpa [tick] using hdist, ?_⟩
  unfold tick
  rw [updateDisplay_cars_in_front, hdist, decide_eq_true_iff]
  linarith

/-- Witness of C7 (amended): Scenario A itself, velocity 60 and front distance 15. -/
theorem tick_intensity_two_braking_witness :
    scenarioA.tick.imu.currentVelocity = scenarioA.imu.currentVelocity * (90 / 100)
    ∧ scenarioA.tick.sensorsAndCameras.distanceInFront
        = scenarioA.sensorsAndCameras.distanceInFront + 15
    ∧ scenarioA.tick.display.status.cars_in_front = true :=
  tick_intensity_two_braking scenarioA (by decide!) (by decide!) (by decide!) (by decide!)
    (by decide!)

/-! ## Idempotence of the tick -/

namespace Planning

theorem brakeWhenObjectDetected_display (p : Planning) (d : Display) :
    ({ p with display := d } : Planning).brakeWhenObjectDetected
      = { p.brakeWhenObjectDetected with display := d } := by
  unfold brakeWhenObjectDetected; simp only []; split_ifs <;> rfl

theorem acc_display (p : Planning) (d : Display) :
    ({ p with display := d } : Planning).acc = { p.acc with display := d } := by
  have h : ∀ s, ({ p with display := d } : Planning).callAccelerateTo s
      = { p.callAccelerateTo s with display := d } := fun _ => rfl
  unfold acc; simp only [h]; split_ifs <;> rfl

theorem brk_display (p : Planning) (d : Display) :
    ({ p with display := d } : Planning).brk = { p.brk with display := d } := by
  have h : ∀ s, ({ p with display := d } : Planning).callBrakeTo s
      = { p.callBrakeTo s with display := d } := fun _ => rfl
  unfold brk; simp only [h]; split_ifs <;> rfl

theorem automaticHeadLights_display (p : Planning) (d : Display) :
    ({ p with display := d } : Planning).automaticHeadLights
      = { p.automaticHeadLights with display := d } := by
  unfold automaticHeadLights; simp only []; split_ifs <;> rfl

theorem automaticallyChangeLane_display (p : Planning) (d : Display) :
    ({ p with display := d } : Planning).automaticallyChangeLane
      = { p.automaticallyChangeLane with display := d } := by
  unfold automaticallyChangeLane; simp only []; split_ifs <;> rfl

theorem automaticaHighBeams_display (p : Planning) (d : Display) :
    ({ p with display := d } : Planning).automaticaHighBeams
      = { p.automaticaHighBeams with display := d } := by
  unfold automaticaHighBeams; simp only []; split_ifs <;> rfl

theorem automaticWindshieldWipers_display (p : Planning) (d : Display) :
    ({ p with display := d } : Planning).automaticWindshieldWipers
      = { p.automaticWindshieldWipers with display := d } := by
  unfold automaticWindshieldWipers; simp only []; split_ifs <;> rfl

theorem gearControl_display (p : Planning) (d : Display) :
    ({ p with display := d } : Planning).gearControl = { p.gearControl with display := d } := by
  unfold gearControl; simp only []; split_ifs <;> rfl

/-- No policy of the tick reads the snapshot. -/
theorem check_all_display (p : Planning) (d : Display) :
    ({ p with display := d } : Planning).check_all = { p.check_all with display := d } := by
  unfold check_all
  simp only [brakeWhenObjectDetected_display, acc_display, brk_display,
    automaticHeadLights_display, automaticallyChangeLane_display, automaticaHighBeams_display,
    automaticWindshieldWipers_display, gearControl_display]


@[simp] theorem updateDisplay_vehicleControl (p : Planning) :
    p.updateDisplay.vehicleControl = p.vehicleControl := by
  rw [updateDisplay_eq]

@[simp] theorem updateDisplay_gps (p : Planning) : p.updateDisplay.gps = p.gps := by
  rw [updateDisplay_eq]

@[simp] theorem updateDisplay_scanners (p : Planning) :
    p.updateDisplay.scanners = p.scanners := by
  rw [updateDisplay_eq]

/-- Recomputing the snapshot twice gives the same state as recomputing it once. -/
theorem updateDisplay_idem (p : Planning) : p.updateDisplay.updateDisplay = p.updateDisplay := by
  rw [updateDisplay_normal p, updateDisplay_normal]
  simp only []
  split_ifs <;> rfl

/-- The wipers policy writes the rain flag into the wipers field and nothing else. -/
theorem automaticWindshieldWipers_eq (p : Planning) :
    p.automaticWindshieldWipers = { p with vehicleControl :=
      { p.vehicleControl with windshieldWipers := p.sensorsAndCameras.rainDetected } } := by
  unfold automaticWindshieldWipers VehicleControl.turnOnWindshieldWipers
  split_ifs with h
  · rw [h]
  · rw [Bool.not_eq_true] at h; rw [h]

theorem VehicleControl.turnOnHeadLights_one (vc : VehicleControl) :
    vc.turnOnHeadLights 1 = { vc with headlightLevel := 1 } := rfl

theorem VehicleControl.turnOnHeadLights_two (vc : VehicleControl) :
    vc.turnOnHeadLights 2 = { vc with headlightLevel := 2 } := rfl

/-- The headlight policy writes the headlight level and nothing else. -/
theorem automaticHeadLights_eq (p : Planning) :
    p.automaticHeadLights = { p with vehicleControl :=
      { p.vehicleControl with headlightLevel :=
          if (p.sensorsAndCameras.lightLevel < 200 ∨ p.sensorsAndCameras.rainDetected = true)
              ∧ p.vehicleControl.headlightLevel = 0 then 1
          else if (p.sensorsAndCameras.lightLevel ≥ 200
              ∧ p.sensorsAndCameras.rainDetected = false)
              ∧ p.vehicleControl.headlightLevel > 0 then 0
          else p.vehicleControl.headlightLevel } } := by
  unfold automaticHeadLights
  simp only [VehicleControl.turnOffHeadlights, VehicleControl.turnOnHeadLights_one]
  split_ifs <;> rfl

/-- The high-beam policy writes the headlight level and nothing else. -/
theorem automaticaHighBeams_eq (p : Planning) :
    p.automaticaHighBeams = { p with vehicleControl :=
      { p.vehicleControl with headlightLevel :=
          if p.sensorsAndCameras.lightLevel < 50 ∧ p.imu.currentVelocity > 25
              ∧ p.sensorsAndCameras.rainDetected = false
              ∧ p.sensorsAndCameras.distanceInFront ≥ 100 then
            if p.vehicleControl.headlightLevel = 1 then 2 else p.vehicleControl.headlightLevel
          else if p.vehicleControl.headlightLevel = 2 then 1
          else p.vehicleControl.headlightLevel } } := by
  unfold automaticaHighBeams
  simp only [VehicleControl.turnOnHeadLights_one, VehicleControl.turnOnHeadLights_two]
  split_ifs <;> rfl

theorem automaticWindshieldWipers_idem (p : Planning) :
    p.automaticWindshieldWipers.automaticWindshieldWipers = p.automaticWindshieldWipers := by
  simp only [automaticWindshieldWipers_eq]

theorem automaticHeadLights_wipers_comm (p : Planning) :
    p.automaticWindshieldWipers.automaticHeadLights
      = p.automaticHeadLights.automaticWindshieldWipers := by
  simp only [automaticWindshieldWipers_eq, automaticHeadLights_eq]

theorem automaticaHighBeams_wipers_comm (p : Planning) :
    p.automaticWindshieldWipers.automaticaHighBeams
      = p.automaticaHighBeams.automaticWindshieldWipers := by
  simp only [automaticWindshieldWipers_eq, automaticaHighBeams_eq]

theorem automaticallyChangeLane_wipers_comm (p : Planning) :
    p.automaticWindshieldWipers.automaticallyChangeLane
      = p.automaticallyChangeLane.automaticWindshieldWipers := by
  simp only [automaticWindshieldWipers_eq]
  unfold automaticallyChangeLane VehicleControl.turnComplete
  simp only []
  split_ifs <;> rfl

theorem automaticallyChangeLane_headlights_comm (p : Planning) :
    p.automaticHeadLights.automaticallyChangeLane
      = p.automaticallyChangeLane.automaticHeadLights := by
  simp only [automaticHeadLights_eq]
  unfold automaticallyChangeLane VehicleControl.turnComplete
  simp only []
  split_ifs <;> rfl

theorem automaticallyChangeLane_highBeams_comm (p : Planning) :
    p.automaticaHighBeams.automaticallyChangeLane
      = p.automaticallyChangeLane.automaticaHighBeams := by
  simp only [automaticaHighBeams_eq]
  unfold automaticallyChangeLane VehicleControl.turnComplete
  simp only []
  split_ifs <;> rfl

/-- The lane-change policy either does nothing or leaves the turn signal at None. -/
theorem automaticallyChangeLane_cases (p : Planning) :
    p.automaticallyChangeLane = p
    ∨ p.automaticallyChangeLane.vehicleControl.turnSignal = 0 := by
  unfold automaticallyChangeLane
  split_ifs <;> first | exact Or.inl rfl | exact Or.inr rfl

/-- Without a turn signal the lane-change policy does nothing. -/
theorem automaticallyChangeLane_of_no_signal (p : Planning)
    (h : p.vehicleControl.turnSignal = 0) : p.automaticallyChangeLane = p := by
  unfold automaticallyChangeLane
  split_ifs <;> first | rfl | omega

theorem automaticallyChangeLane_idem (p : Planning) :
    p.automaticallyChangeLane.automaticallyChangeLane = p.automaticallyChangeLane := by
  rcases automaticallyChangeLane_cases p with h | h
  · rw [h, h]
  · exact automaticallyChangeLane_of_no_signal _ h

/-- One round of the headlight rule `a` followed by the high-beam rule `h` settles
the level: the headlight rule does not change it again. Here `L` is the condition
for switching on, `D` the condition for switching off and `H` the high-beam
condition. -/
theorem headlight_level_settles (L D H : Prop) [Decidable L] [Decidable D] [Decidable H]
    (hD : D ↔ ¬ L) (hH : H → L) (a h : Int → Int)
    (ha : ∀ y, a y = if L ∧ y = 0 then 1 else if D ∧ y > 0 then 0 else y)
    (hh : ∀ y, h y = if H then (if y = 1 then 2 else y) else if y = 2 then 1 else y)
    (x : Int) : a (h (a x)) = h (a x) := by
  by_cases hl : L
  · have hd : ¬ D := fun hd => (hD.mp hd) hl
    simp only [ha, hh, hl, hd, true_and, false_and, if_false]
    split_ifs <;> omega
  · have hd : D := hD.mpr hl
    have hn : ¬ H := fun hn => hl (hH hn)
    simp only [ha, hh, hl, hd, hn, true_and, false_and, if_false]
    split_ifs <;> omega

/-- After the headlight and high-beam policies the headlight level is settled: the
headlight policy has nothing left to do. -/
theorem automaticHeadLights_after_round (p : Planning) :
    p.automaticHeadLights.automaticaHighBeams.automaticHeadLights
      = p.automaticHeadLights.automaticaHighBeams := by
  obtain ⟨⟨cc, ww, hl, g, ts⟩, ⟨v⟩, sc, gps, ⟨ll, df, db, oR, oL, rn⟩, d, wa, wb, sw⟩ := p
  simp only [automaticaHighBeams_eq, automaticHeadLights_eq]
  congr 2
  refine headlight_level_settles (ll < 200 ∨ rn = true) (ll ≥ 200 ∧ rn = false)
    (ll < 50 ∧ v > 25 ∧ rn = false ∧ df ≥ 100) ?_ ?_
    (fun y => if (ll < 200 ∨ rn = true) ∧ y = 0 then 1
      else if (ll ≥ 200 ∧ rn = false) ∧ y > 0 then 0 else y)
    (fun y => if ll < 50 ∧ v > 25 ∧ rn = false ∧ df ≥ 100 then (if y = 1 then 2 else y)
      else if y = 2 then 1 else y)
    (fun _ => rfl) (fun _ => rfl) hl
  · constructor
    · rintro ⟨h1, h2⟩ h
      rcases h with h | h
      · exact absurd h1 (not_le.mpr h)
      · rw [h2] at h; exact absurd h (by decide)
    · intro h
      constructor
      · exact not_lt.mp (fun h1 => h (Or.inl h1))
      · cases rn
        · rfl
        · exact absurd (Or.inr rfl) h
  · rintro ⟨h1, -⟩
    left
    linarith

/-- After the headlight and high-beam policies the high-beam policy has nothing left
to do. -/
theorem automaticaHighBeams_after_round (p : Planning) :
    p.automaticHeadLights.automaticaHighBeams.automaticaHighBeams
      = p.automaticHeadLights.automaticaHighBeams := by
  obtain ⟨⟨cc, ww, hl, g, ts⟩, ⟨v⟩, sc, gps, ⟨ll, df, db, oR, oL, rn⟩, d, wa, wb, sw⟩ := p
  simp only [automaticaHighBeams_eq, automaticHeadLights_eq]
  congr 2
  split_ifs <;> omega


/-- The four middle policies of the tick (headlights, lane change, high beams,
wipers), run a second time, change nothing. -/
theorem middle_policies_idem (p : Planning) :
    p.automaticHeadLights.automaticallyChangeLane.automaticaHighBeams.automaticWindshieldWipers.automaticHeadLights.automaticallyChangeLane.automaticaHighBeams.automaticWindshieldWipers
      = p.automaticHeadLights.automaticallyChangeLane.automaticaHighBeams.automaticWindshieldWipers := by
  rw [automaticHeadLights_wipers_comm, automaticallyChangeLane_wipers_comm,
    automaticaHighBeams_wipers_comm, automaticWindshieldWipers_idem]
  rw [← automaticallyChangeLane_highBeams_comm p.automaticHeadLights,
    ← automaticallyChangeLane_headlights_comm, automaticallyChangeLane_idem,
    ← automaticallyChangeLane_highBeams_comm,
    automaticHeadLights_after_round, automaticaHighBeams_after_round]


/-- Obstacle braking does nothing when no obstacle is in braking range of a moving
vehicle. -/
theorem brakeWhenObjectDetected_of_idle (p : Planning)
    (hfront : (p.vehicleControl.gear = 3 ∨ p.vehicleControl.gear = 2) →
      p.imu.currentVelocity ≠ 0 →
      p.sensorsAndCameras.distanceInFront ≤ 0 ∨ 100 ≤ p.sensorsAndCameras.distanceInFront)
    (hback : p.vehicleControl.gear = 1 → p.imu.currentVelocity ≠ 0 →
      p.sensorsAndCameras.distanceBehind ≤ 0 ∨ 20 ≤ p.sensorsAndCameras.distanceBehind) :
    p.brakeWhenObjectDetected = p := by
  unfold brakeWhenObjectDetected
  split_ifs with g c1 c2 c3 g1 c4
  · rcases hfront g.symm c1.1 with h | h <;> linarith [c1.2.1, c1.2.2]
  · rcases hfront g.symm c2.1 with h | h <;> linarith [c2.2.1, c2.2.2]
  · rcases hfront g.symm c3.1 with h | h <;> linarith [c3.2.1, c3.2.2]
  · rfl
  · rcases hback g1 c4.1 with h | h <;> linarith [c4.2.1, c4.2.2]
  · rfl
  · rfl

/-- The gear-consistency policy does nothing when velocity and cruise control
already agree with the gear. -/
theorem gearControl_of_settled (p : Planning)
    (hpark : p.vehicleControl.gear = 0 → p.imu.currentVelocity = 0)
    (hrev : p.vehicleControl.gear = 1 → p.imu.currentVelocity ≤ 0)
    (hdrive : p.vehicleControl.gear = 3 → 0 ≤ p.imu.currentVelocity)
    (hcc : p.vehicleControl.gear = 0 ∨ p.vehicleControl.gear = 1 ∨ p.vehicleControl.gear = 2 →
      p.vehicleControl.ccActive = false)
    (hstart : p.vehicleControl.gear = 3 → p.vehicleControl.ccActive = false →
      p.gps.onHighway = false ∨ p.imu.currentVelocity ≤ 0) :
    p.gearControl = p := by
  have h1 : ¬ (p.vehicleControl.gear = 0 ∧ p.imu.currentVelocity ≠ 0) :=
    fun h => h.2 (hpark h.1)
  have h2 : ¬ (p.vehicleControl.gear = 1 ∧ p.imu.currentVelocity > 0) :=
    fun h => absurd (hrev h.1) (not_le.mpr h.2)
  have h3 : ¬ (p.vehicleControl.gear = 3 ∧ p.imu.currentVelocity < 0) :=
    fun h => absurd (hdrive h.1) (not_le.mpr h.2)
  have h4 : ¬ ((p.vehicleControl.gear = 0 ∨ p.vehicleControl.gear = 1
      ∨ p.vehicleControl.gear = 2) ∧ p.vehicleControl.ccActive = true) := by
    rintro ⟨hg, hc⟩
    rw [hcc hg] at hc
    exact absurd hc (by decide)
  unfold gearControl
  simp only [h1, h2, h3, h4, if_false]
  split_ifs with c
  · have h5 : ¬ (p.gps.isOnHighway = true ∧ p.imu.currentVelocity > 0) := by
      rintro ⟨ha, hb⟩
      rcases hstart c.1 c.2 with h | h
      · unfold GPS.isOnHighway at ha
        rw [h] at ha
        exact absurd ha (by decide)
      · exact absurd h (not_le.mpr hb)
    unfold VehicleControl.startCC
    rw [if_neg h5]
  · rfl

@[simp] theorem automaticHeadLights_ccActive (p : Planning) :
    p.automaticHeadLights.vehicleControl.ccActive = p.vehicleControl.ccActive := by
  rw [automaticHeadLights_eq]

@[simp] theorem automaticaHighBeams_ccActive (p : Planning) :
    p.automaticaHighBeams.vehicleControl.ccActive = p.vehicleControl.ccActive := by
  rw [automaticaHighBeams_eq]

@[simp] theorem automaticWindshieldWipers_ccActive (p : Planning) :
    p.automaticWindshieldWipers.vehicleControl.ccActive = p.vehicleControl.ccActive := by
  rw [automaticWindshieldWipers_eq]

@[simp] theorem automaticallyChangeLane_ccActive (p : Planning) :
    p.automaticallyChangeLane.vehicleControl.ccActive = p.vehicleControl.ccActive := by
  unfold automaticallyChangeLane; split_ifs <;> rfl

@[simp] theorem automaticHeadLights_gps (p : Planning) : p.automaticHeadLights.gps = p.gps := by
  rw [automaticHeadLights_eq]

@[simp] theorem automaticaHighBeams_gps (p : Planning) : p.automaticaHighBeams.gps = p.gps := by
  rw [automaticaHighBeams_eq]

@[simp] theorem automaticWindshieldWipers_gps (p : Planning) :
    p.automaticWindshieldWipers.gps = p.gps := by
  rw [automaticWindshieldWipers_eq]

@[simp] theorem automaticallyChangeLane_onHighway (p : Planning) :
    p.automaticallyChangeLane.gps.onHighway = p.gps.onHighway := by
  unfold automaticallyChangeLane GPS.setLaneNumber; split_ifs <;> rfl

@[simp] theorem automaticHeadLights_wantsToAcc (p : Planning) :
    p.automaticHeadLights.wantsToAcc = p.wantsToAcc := by
  rw [automaticHeadLights_eq]

@[simp] theorem automaticaHighBeams_wantsToAcc (p : Planning) :
    p.automaticaHighBeams.wantsToAcc = p.wantsToAcc := by
  rw [automaticaHighBeams_eq]

@[simp] theorem automaticWindshieldWipers_wantsToAcc (p : Planning) :
    p.automaticWindshieldWipers.wantsToAcc = p.wantsToAcc := by
  rw [automaticWindshieldWipers_eq]

@[simp] theorem automaticallyChangeLane_wantsToAcc (p : Planning) :
    p.automaticallyChangeLane.wantsToAcc = p.wantsToAcc := by
  unfold automaticallyChangeLane; split_ifs <;> rfl

@[simp] theorem automaticHeadLights_wantsToBrk (p : Planning) :
    p.automaticHeadLights.wantsToBrk = p.wantsToBrk := by
  rw [automaticHeadLights_eq]

@[simp] theorem automaticaHighBeams_wantsToBrk (p : Planning) :
    p.automaticaHighBeams.wantsToBrk = p.wantsToBrk := by
  rw [automaticaHighBeams_eq]

@[simp] theorem automaticWindshieldWipers_wantsToBrk (p : Planning) :
    p.automaticWindshieldWipers.wantsToBrk = p.wantsToBrk := by
  rw [automaticWindshieldWipers_eq]

@[simp] theorem automaticallyChangeLane_wantsToBrk (p : Planning) :
    p.automaticallyChangeLane.wantsToBrk = p.wantsToBrk := by
  unfold automaticallyChangeLane; split_ifs <;> rfl

/-- On a settled state with no pending intent and no obstacle in braking range,
the tick reduces to its four middle policies. -/
theorem check_all_of_settled (p : Planning)
    (ha : p.wantsToAcc = false) (hb : p.wantsToBrk = false)
    (hfront : (p.vehicleControl.gear = 3 ∨ p.vehicleControl.gear = 2) →
      p.imu.currentVelocity ≠ 0 →
      p.sensorsAndCameras.distanceInFront ≤ 0 ∨ 100 ≤ p.sensorsAndCameras.distanceInFront)
    (hback : p.vehicleControl.gear = 1 → p.imu.currentVelocity ≠ 0 →
      p.sensorsAndCameras.distanceBehind ≤ 0 ∨ 20 ≤ p.sensorsAndCameras.distanceBehind)
    (hpark : p.vehicleControl.gear = 0 → p.imu.currentVelocity = 0)
    (hrev : p.vehicleControl.gear = 1 → p.imu.currentVelocity ≤ 0)
    (hdrive : p.vehicleControl.gear = 3 → 0 ≤ p.imu.currentVelocity)
    (hcc : p.vehicleControl.gear = 0 ∨ p.vehicleControl.gear = 1 ∨ p.vehicleControl.gear = 2 →
      p.vehicleControl.ccActive = false)
    (hstart : p.vehicleControl.gear = 3 → p.vehicleControl.ccActive = false →
      p.gps.onHighway = false ∨ p.imu.currentVelocity ≤ 0) :
    p.check_all
      = p.automaticHeadLights.automaticallyChangeLane.automaticaHighBeams.automaticWindshieldWipers := by
  unfold check_all
  simp only []
  rw [brakeWhenObjectDetected_of_idle p hfront hback, acc_of_no_intent p ha,
    brk_of_no_intent p hb]
  apply gearControl_of_settled
  · simpa using hpark
  · simpa using hrev
  · simpa using hdrive
  · simpa using hcc
  · simpa using hstart


end Planning

/-- C4 (counterexample): the start state with a vehicle 50 in front has no pending
intent, and two consecutive ticks, with no command or perception override in
between, show different snapshots: the speed is 57 after the first tick and 54
after the second, because obstacle braking fires again. -/
theorem tick_not_idempotent_while_braking :
    obstacleAt50.wantsToAcc = false ∧ obstacleAt50.wantsToBrk = false
    ∧ obstacleAt50.tick.display.status.speed = 57
    ∧ obstacleAt50.tick.tick.display.status.speed = 54
    ∧ obstacleAt50.tick.tick.display.status ≠ obstacleAt50.tick.display.status := by
  decide!

/-- C4 (amended): idempotence of the tick on settled states. For every state with no
pending accelerate or brake intent, on which obstacle braking does not fire (the
vehicle is stationary, or the front distance is outside `(0, 100)` in Drive or
Neutral and the rear distance outside `(0, 20)` in Reverse) and whose velocity and
cruise-control flag already agree with the gear (velocity 0 in Park, at most 0 in
Reverse, at least 0 in Drive; cruise control off outside Drive, and in Drive off only
when it cannot start), a second tick with no command or perception override in
between produces the same state, hence the same snapshot, as the first. -/
theorem tick_idempotent_of_settled (p : Planning)
    (ha : p.wantsToAcc = false) (hb : p.wantsToBrk = false)
    (hfront : (p.vehicleControl.gear = 3 ∨ p.vehicleControl.gear = 2) →
      p.imu.currentVelocity ≠ 0 →
      p.sensorsAndCameras.distanceInFront ≤ 0 ∨ 100 ≤ p.sensorsAndCameras.distanceInFront)
    (hback : p.vehicleControl.gear = 1 → p.imu.currentVelocity ≠ 0 →
      p.sensorsAndCameras.distanceBehind ≤ 0 ∨ 20 ≤ p.sensorsAndCameras.distanceBehind)
    (hpark : p.vehicleControl.gear = 0 → p.imu.currentVelocity = 0)
    (hrev : p.vehicleControl.gear = 1 → p.imu.currentVelocity ≤ 0)
    (hdrive : p.vehicleControl.gear = 3 → 0 ≤ p.imu.currentVelocity)
    (hcc : p.vehicleControl.gear = 0 ∨ p.vehicleControl.gear = 1 ∨ p.vehicleControl.gear = 2 →
      p.vehicleControl.ccActive = false)
    (hstart : p.vehicleControl.gear = 3 → p.vehicleControl.ccActive = false →
      p.gps.onHighway = false ∨ p.imu.currentVelocity ≤ 0) :
    p.tick.tick = p.tick ∧ p.tick.tick.display.status = p.tick.display.status := by
  have h1 := check_all_of_settled p ha hb hfront hback hpark hrev hdrive hcc hstart
  have h2 : p.check_all.check_all = p.check_all := by
    rw [check_all_of_settled p.check_all]
    · rw [h1]
      exact middle_policies_idem p
    · rw [h1]; simpa using ha
    · rw [h1]; simpa using hb
    · rw [h1]; simpa using hfront
    · rw [h1]; simpa using hback
    · rw [h1]; simpa using hpark
    · rw [h1]; simpa using hrev
    · rw [h1]; simpa using hdrive
    · rw [h1]; simpa using hcc
    · rw [h1]; simpa using hstart
  have h3 : p.tick.tick = p.tick := by
    unfold tick
    rw [updateDisplay_eq p.check_all, check_all_display, h2, ← updateDisplay_eq p.check_all,
      updateDisplay_idem]
  exact ⟨h3, by rw [h3]⟩

/-- Witness of C4 (amended): the start state (velocity 60, Drive, cruise control on,
nothing detected in front or behind). -/
theorem tick_idempotent_of_settled_witness :
    startState.tick.tick = startState.tick
    ∧ startState.tick.tick.display.status = startState.tick.display.status :=
  tick_idempotent_of_settled startState (by decide!) (by decide!) (by decide!) (by decide!)
    (by decide!) (by decide!) (by decide!) (by decide!) (by decide!)

/-! ## The display snapshot -/

/-- C20: the snapshot projection. For every state and every previous snapshot, after
`updateDisplay` the snapshot's gear, cruise-control flag, wipers flag, headlight
level, lane, `cars_on_left` and `cars_on_right` equal the state's values;
`cars_in_front` holds iff `distanceFront < 100`; `cars_in_back` holds iff
`distanceBehind < 20`; `leftTurn` holds iff the signal is Left (-1) and `rightTurn`
iff it is Right (1); `rear_view` holds iff the gear is Reverse (1) and the velocity
is at most 0; and `lane_warning` is 0 when the signal is Left with `objectLeft` set
and 1 when the signal is Right with `objectRight` set. -/
theorem updateDisplay_projection (p : Planning) :
    p.updateDisplay.display.status.gear = p.vehicleControl.gear
    ∧ p.updateDisplay.display.status.cruise_control_active = p.vehicleControl.ccActive
    ∧ p.updateDisplay.display.status.wipers_on = p.vehicleControl.windshieldWipers
    ∧ p.updateDisplay.display.status.headlights = p.vehicleControl.headlightLevel
    ∧ p.updateDisplay.display.status.lane = p.gps.laneNumber
    ∧ p.updateDisplay.display.status.cars_on_left = p.sensorsAndCameras.objectLeft
    ∧ p.updateDisplay.display.status.cars_on_right = p.sensorsAndCameras.objectRight
    ∧ (p.updateDisplay.display.status.cars_in_front = true
        ↔ p.sensorsAndCameras.distanceInFront < 100)
    ∧ (p.updateDisplay.display.status.cars_in_back = true
        ↔ p.sensorsAndCameras.distanceBehind < 20)
    ∧ (p.updateDisplay.display.status.leftTurn = true ↔ p.vehicleControl.turnSignal = -1)
    ∧ (p.updateDisplay.display.status.rightTurn = true ↔ p.vehicleControl.turnSignal = 1)
    ∧ (p.updateDisplay.display.status.rear_view = true
        ↔ (p.vehicleControl.gear = 1 ∧ p.imu.currentVelocity ≤ 0))
    ∧ (p.vehicleControl.turnSignal = -1 ∧ p.sensorsAndCameras.objectLeft = true →
        p.updateDisplay.display.status.lane_warning = 0)
    ∧ (p.vehicleControl.turnSignal = 1 ∧ p.sensorsAndCameras.objectRight = true →
        p.updateDisplay.display.status.lane_warning = 1) := by
  rw [updateDisplay_normal p]
  refine ⟨rfl, rfl, rfl, rfl, rfl, rfl, rfl, ?_, ?_, ?_, ?_, ?_, ?_, ?_⟩
  · exact decide_eq_true_iff
  · exact decide_eq_true_iff
  · exact decide_eq_true_iff
  · exact decide_eq_true_iff
  · exact decide_eq_true_iff
  · rintro ⟨ht, ho⟩
    simp [ht, ho]
  · rintro ⟨ht, ho⟩
    simp [ht, ho]

/-- With no turn signal the snapshot shows no lane warning, whatever the
lane-departure check found. -/
theorem Planning.updateDisplay_lane_warning_of_no_signal (p : Planning)
    (ht : p.vehicleControl.turnSignal = 0) :
    p.updateDisplay.display.status.lane_warning = -1 := by
  rw [updateDisplay_normal p]
  simp [ht]

/-- C19 (failing input): a vehicle moving at 60 on a marked highway, with no turn
signal, on its left lane line (left distance 0, right distance 3). The
lane-departure check alone sets the warning to 0, but the snapshot computed by
`updateDisplay` has `lane_warning = -1`: the turn-signal check runs after it and
resets the warning whenever no signal is active. -/
theorem updateDisplay_drops_lane_departure :
    driftingLeft.imu.currentVelocity ≠ 0
    ∧ driftingLeft.gps.isOnUnregisteredRoad = false
    ∧ driftingLeft.scanners.marked_road = true
    ∧ driftingLeft.vehicleControl.turnSignal = 0
    ∧ driftingLeft.scanners.distanceFromLineLeft ≤ 0
    ∧ 0 < driftingLeft.scanners.distanceFromLineRight
    ∧ driftingLeft.detectLaneDeparture.display.status.lane_warning = 0
    ∧ driftingLeft.updateDisplay.display.status.lane_warning = -1 := by
  decide!

/-! ## What the braking and acceleration steps leave alone -/

/-- Of the perception, `brake` writes the front distance only. -/
theorem VehicleControl.brake_snd (vc : VehicleControl) (imu : IMU) (sc : SensorsAndCameras)
    (i : Int) :
    (vc.brake imu sc i).2
      = { sc with distanceInFront := (vc.brake imu sc i).2.distanceInFront } := by
  unfold VehicleControl.brake; simp only []; split_ifs <;> rfl

/-- Of the perception, `accelerateTo` writes the two distances only. -/
theorem VehicleControl.accelerateTo_snd (vc : VehicleControl) (imu : IMU)
    (sc : SensorsAndCameras) (s : Int) :
    (vc.accelerateTo imu sc s).2
      = { sc with
          distanceInFront := (vc.accelerateTo imu sc s).2.distanceInFront
          distanceBehind := (vc.accelerateTo imu sc s).2.distanceBehind } := by
  unfold VehicleControl.accelerateTo; simp only []; split_ifs <;> rfl

namespace Planning

/-- Obstacle braking writes the velocity, the front distance and the accelerate
intent, and nothing else. -/
theorem brakeWhenObjectDetected_eq (p : Planning) :
    p.brakeWhenObjectDetected =
      { p with
        imu := p.brakeWhenObjectDetected.imu
        sensorsAndCameras := { p.sensorsAndCameras with
          distanceInFront := p.brakeWhenObjectDetected.sensorsAndCameras.distanceInFront }
        wantsToAcc := p.brakeWhenObjectDetected.wantsToAcc } := by
  have hb : ∀ i, (p.callBrake i).sensorsAndCameras
      = { p.sensorsAndCameras with
          distanceInFront := (p.callBrake i).sensorsAndCameras.distanceInFront } :=
    fun i => VehicleControl.brake_snd _ _ _ i
  unfold brakeWhenObjectDetected
  split_ifs
  · simp only []; congr 1; exact hb 1
  · simp only []; congr 1; exact hb 2
  · simp only []; congr 1; exact hb 3
  · rfl
  · simp only []; congr 1; exact hb 3
  · rfl
  · rfl

/-- The pending-acceleration step writes the velocity, the two distances and the
accelerate intent, and nothing else. -/
theorem acc_eq (p : Planning) :
    p.acc =
      { p with
        imu := p.acc.imu
        sensorsAndCameras := { p.sensorsAndCameras with
          distanceInFront := p.acc.sensorsAndCameras.distanceInFront
          distanceBehind := p.acc.sensorsAndCameras.distanceBehind }
        wantsToAcc := p.acc.wantsToAcc } := by
  have hb : p.callAccelerateTo p.speed_wanted
      = { p with
          imu := (p.callAccelerateTo p.speed_wanted).imu
          sensorsAndCameras := { p.sensorsAndCameras with
            distanceInFront :=
              (p.callAccelerateTo p.speed_wanted).sensorsAndCameras.distanceInFront
            distanceBehind :=
              (p.callAccelerateTo p.speed_wanted).sensorsAndCameras.distanceBehind } } := by
    unfold callAccelerateTo
    simp only []
    congr 1
    exact VehicleControl.accelerateTo_snd _ _ _ _
  unfold acc
  simp only []
  split_ifs <;> first | rfl | rw [hb]

/-- The pending-braking step writes the velocity, the front distance and the brake
intent, and nothing else. -/
theorem brk_eq (p : Planning) :
    p.brk =
      { p with
        imu := p.brk.imu
        sensorsAndCameras := { p.sensorsAndCameras with
          distanceInFront := p.brk.sensorsAndCameras.distanceInFront }
        wantsToBrk := p.brk.wantsToBrk } := by
  have hb : p.callBrakeTo p.speed_wanted
      = { p with
          imu := (p.callBrakeTo p.speed_wanted).imu
          sensorsAndCameras := { p.sensorsAndCameras with
            distanceInFront :=
              (p.callBrakeTo p.speed_wanted).sensorsAndCameras.distanceInFront } } := by
    unfold callBrakeTo
    simp only []
    congr 1
    exact VehicleControl.brake_snd _ _ _ 2
  unfold brk
  simp only []
  split_ifs <;> first | rfl | rw [hb]


/-- The first three steps of the tick (obstacle braking, pending acceleration,
pending braking) write the velocity, the two distances and the two intents, and
nothing else. -/
theorem intent_steps_eq (p : Planning) :
    p.brakeWhenObjectDetected.acc.brk =
      { p with
        imu := p.brakeWhenObjectDetected.acc.brk.imu
        sensorsAndCameras := { p.sensorsAndCameras with
          distanceInFront := p.brakeWhenObjectDetected.acc.brk.sensorsAndCameras.distanceInFront
          distanceBehind := p.brakeWhenObjectDetected.acc.brk.sensorsAndCameras.distanceBehind }
        wantsToAcc := p.brakeWhenObjectDetected.acc.brk.wantsToAcc
        wantsToBrk := p.brakeWhenObjectDetected.acc.brk.wantsToBrk } := by
  have h1 := brakeWhenObjectDetected_eq p
  have h2 := acc_eq p.brakeWhenObjectDetected
  have h3 := brk_eq p.brakeWhenObjectDetected.acc
  generalize p.brakeWhenObjectDetected = a at h1 h2 h3 ⊢
  generalize a.acc = b at h2 h3 ⊢
  generalize b.brk = c at h3 ⊢
  rw [h3, h2, h1]


/-- The gear-consistency policy writes the velocity and the cruise-control flag,
and nothing else. -/
theorem gearControl_eq (p : Planning) :
    p.gearControl =
      { p with
        imu := p.gearControl.imu
        vehicleControl := { p.vehicleControl with
          ccActive := p.gearControl.vehicleControl.ccActive } } := by
  unfold gearControl VehicleControl.stopCC VehicleControl.startCC
  simp only []
  split_ifs <;> rfl

/-- The lane-change policy writes the lane, the turn signal and the two side-object
flags, and nothing else. -/
theorem automaticallyChangeLane_eq (p : Planning) :
    p.automaticallyChangeLane =
      { p with
        gps := { p.gps with laneNumber := p.automaticallyChangeLane.gps.laneNumber }
        vehicleControl := { p.vehicleControl with
          turnSignal := p.automaticallyChangeLane.vehicleControl.turnSignal }
        sensorsAndCameras := { p.sensorsAndCameras with
          objectRight := p.automaticallyChangeLane.sensorsAndCameras.objectRight
          objectLeft := p.automaticallyChangeLane.sensorsAndCameras.objectLeft } } := by
  unfold automaticallyChangeLane VehicleControl.turnComplete GPS.setLaneNumber
  split_ifs <;> rfl

/-- The navigation state after a tick is the one the lane-change policy computes
right after the braking and acceleration steps. -/
theorem check_all_gps (p : Planning) :
    p.check_all.gps = p.brakeWhenObjectDetected.acc.brk.automaticallyChangeLane.gps := by
  unfold check_all
  simp only []
  rw [gearControl_eq, automaticWindshieldWipers_eq, automaticaHighBeams_eq,
    automaticallyChangeLane_headlights_comm, automaticHeadLights_eq]

/-- The turn signal after a tick is the one the lane-change policy leaves right after
the braking and acceleration steps. -/
theorem check_all_turnSignal (p : Planning) :
    p.check_all.vehicleControl.turnSignal
      = p.brakeWhenObjectDetected.acc.brk.automaticallyChangeLane.vehicleControl.turnSignal := by
  unfold check_all
  simp only []
  rw [gearControl_eq, automaticWindshieldWipers_eq, automaticaHighBeams_eq,
    automaticallyChangeLane_headlights_comm, automaticHeadLights_eq]

/-- The headlight level after a tick is the one the headlight and high-beam policies
compute right after the braking and acceleration steps. -/
theorem check_all_headlightLevel (p : Planning) :
    p.check_all.vehicleControl.headlightLevel
      = p.brakeWhenObjectDetected.acc.brk.automaticHeadLights.automaticaHighBeams.vehicleControl.headlightLevel := by
  unfold check_all
  simp only []
  rw [gearControl_eq, automaticWindshieldWipers_eq,
    ← automaticallyChangeLane_highBeams_comm, automaticallyChangeLane_eq]

end Planning

/-! ## Automatic lane change -/

/-- C16: a successful automatic lane change. For every state with cruise control
active, velocity not 0, more than one lane and `1 <= lane <= numberOfLanes`: if the
turn signal is Left (-1), `objectLeft` is false and `lane > 1`, the lane-change step
sets the lane to `lane - 1` and the signal to None (0); if the turn signal is Right
(1), `objectRight` is false and `lane < numberOfLanes`, it sets the lane to
`lane + 1` and the signal to None. -/
theorem automaticallyChangeLane_success (p : Planning)
    (hcc : p.vehicleControl.ccActive = true)
    (hv : p.imu.currentVelocity ≠ 0)
    (hl : p.gps.numberOfLanes > 1)
    (h1 : 1 ≤ p.gps.laneNumber) (h2 : p.gps.laneNumber ≤ p.gps.numberOfLanes) :
    (p.vehicleControl.turnSignal = -1 → p.sensorsAndCameras.objectLeft = false →
      p.gps.laneNumber > 1 →
      p.automaticallyChangeLane.gps.laneNumber = p.gps.laneNumber - 1
      ∧ p.automaticallyChangeLane.vehicleControl.turnSignal = 0)
    ∧ (p.vehicleControl.turnSignal = 1 → p.sensorsAndCameras.objectRight = false →
      p.gps.laneNumber < p.gps.numberOfLanes →
      p.automaticallyChangeLane.gps.laneNumber = p.gps.laneNumber + 1
      ∧ p.automaticallyChangeLane.vehicleControl.turnSignal = 0) := by
  have hgate : p.imu.currentVelocity ≠ 0 ∧ p.vehicleControl.ccActive = true
      ∧ p.gps.numberOfLanes > 1 := ⟨hv, hcc, hl⟩
  constructor
  · intro ht ho hlane
    have hneg : p.vehicleControl.turnSignal < 0 := by rw [ht]; decide
    have hset : p.gps.laneNumber - 1 > 0 ∧ p.gps.laneNumber - 1 ≤ p.gps.numberOfLanes := by
      omega
    unfold automaticallyChangeLane
    rw [if_pos hgate, if_pos hneg, if_pos ⟨ho, hlane⟩]
    unfold GPS.setLaneNumber
    rw [if_pos hset]
    exact ⟨rfl, rfl⟩
  · intro ht ho hlane
    have hneg : ¬ p.vehicleControl.turnSignal < 0 := by rw [ht]; decide
    have hpos : p.vehicleControl.turnSignal > 0 := by rw [ht]; decide
    have hset : p.gps.laneNumber + 1 > 0 ∧ p.gps.laneNumber + 1 ≤ p.gps.numberOfLanes := by
      omega
    unfold automaticallyChangeLane
    rw [if_pos hgate, if_neg hneg, if_pos hpos, if_pos ⟨ho, hlane⟩]
    unfold GPS.setLaneNumber
    rw [if_pos hset]
    exact ⟨rfl, rfl⟩

/-- Witness of C16: the start state (4 lanes, lane 2, velocity 60, cruise control
active) with the turn signal Left and nothing on the left moves to lane 1. -/
theorem automaticallyChangeLane_success_witness :
    signalLeftFree.automaticallyChangeLane.gps.laneNumber = signalLeftFree.gps.laneNumber - 1
    ∧ signalLeftFree.automaticallyChangeLane.vehicleControl.turnSignal = 0 :=
  (automaticallyChangeLane_success signalLeftFree (by decide!) (by decide!) (by decide!)
    (by decide!) (by decide!)).1 (by decide!) (by decide!) (by decide!)

/-- A blocked lane change: with the gate open (velocity not 0, cruise control active,
more than one lane) and the requested side occupied or the lane at the edge of the
road, the lane-change step keeps the lane and resets the signal to None. -/
theorem Planning.automaticallyChangeLane_blocked (p : Planning)
    (hcc : p.vehicleControl.ccActive = true)
    (hv : p.imu.currentVelocity ≠ 0)
    (hl : p.gps.numberOfLanes > 1)
    (hb : (p.vehicleControl.turnSignal = -1
          ∧ (p.sensorsAndCameras.objectLeft = true ∨ p.gps.laneNumber = 1))
      ∨ (p.vehicleControl.turnSignal = 1
          ∧ (p.sensorsAndCameras.objectRight = true
            ∨ p.gps.laneNumber = p.gps.numberOfLanes))) :
    p.automaticallyChangeLane.gps.laneNumber = p.gps.laneNumber
    ∧ p.automaticallyChangeLane.vehicleControl.turnSignal = 0 := by
  have hgate : p.imu.currentVelocity ≠ 0 ∧ p.vehicleControl.ccActive = true
      ∧ p.gps.numberOfLanes > 1 := ⟨hv, hcc, hl⟩
  unfold automaticallyChangeLane
  rw [if_pos hgate]
  rcases hb with ⟨ht, ho⟩ | ⟨ht, ho⟩
  · have hneg : p.vehicleControl.turnSignal < 0 := by rw [ht]; decide
    have hno : ¬ (p.sensorsAndCameras.objectLeft = false ∧ p.gps.laneNumber > 1) := by
      rintro ⟨h1, h2⟩
      rcases ho with h | h
      · rw [h] at h1; exact absurd h1 (by decide)
      · omega
    rw [if_pos hneg, if_neg hno]
    exact ⟨rfl, rfl⟩
  · have hneg : ¬ p.vehicleControl.turnSignal < 0 := by rw [ht]; decide
    have hpos : p.vehicleControl.turnSignal > 0 := by rw [ht]; decide
    have hno : ¬ (p.sensorsAndCameras.objectRight = false
        ∧ p.gps.laneNumber < p.gps.numberOfLanes) := by
      rintro ⟨h1, h2⟩
      rcases ho with h | h
      · rw [h] at h1; exact absurd h1 (by decide)
      · omega
    rw [if_neg hneg, if_pos hpos, if_neg hno]
    exact ⟨rfl, rfl⟩

/-- C17 (counterexample): Scenario D at velocity 3 with a vehicle 50 in front has
cruise control active, velocity not 0, 3 lanes, the signal Left and an object on the
left; obstacle braking stops the vehicle before the lane-change policy runs, so after
the tick the turn signal is still Left, not None. -/
theorem check_all_keeps_signal_when_stopped :
    scenarioDSlow.vehicleControl.ccActive = true
    ∧ scenarioDSlow.imu.currentVelocity ≠ 0
    ∧ scenarioDSlow.gps.numberOfLanes > 1
    ∧ scenarioDSlow.vehicleControl.turnSignal = -1
    ∧ scenarioDSlow.sensorsAndCameras.objectLeft = true
    ∧ scenarioDSlow.brakeWhenObjectDetected.imu.currentVelocity = 0
    ∧ scenarioDSlow.check_all.vehicleControl.turnSignal = -1
    ∧ scenarioDSlow.check_all.vehicleControl.turnSignal ≠ 0 := by
  decide!

/-- A blocked lane change through the whole tick: when the velocity is still not 0
as the lane-change policy runs, the tick keeps the lane and resets the signal. -/
theorem Planning.check_all_of_blocked_request (p : Planning)
    (hcc : p.vehicleControl.ccActive = true)
    (hv : p.brakeWhenObjectDetected.acc.brk.imu.currentVelocity ≠ 0)
    (hl : p.gps.numberOfLanes > 1)
    (hb : (p.vehicleControl.turnSignal = -1
          ∧ (p.sensorsAndCameras.objectLeft = true ∨ p.gps.laneNumber = 1))
      ∨ (p.vehicleControl.turnSignal = 1
          ∧ (p.sensorsAndCameras.objectRight = true
            ∨ p.gps.laneNumber = p.gps.numberOfLanes))) :
    p.check_all.gps.laneNumber = p.gps.laneNumber
    ∧ p.check_all.vehicleControl.turnSignal = 0 := by
  have hq := intent_steps_eq p
  have hvc : p.brakeWhenObjectDetected.acc.brk.vehicleControl = p.vehicleControl := by
    rw [hq]
  have hgps : p.brakeWhenObjectDetected.acc.brk.gps = p.gps := by rw [hq]
  have hoL : p.brakeWhenObjectDetected.acc.brk.sensorsAndCameras.objectLeft
      = p.sensorsAndCameras.objectLeft := by rw [hq]
  have hoR : p.brakeWhenObjectDetected.acc.brk.sensorsAndCameras.objectRight
      = p.sensorsAndCameras.objectRight := by rw [hq]
  have h := automaticallyChangeLane_blocked p.brakeWhenObjectDetected.acc.brk
    (by rw [hvc]; exact hcc) hv (by rw [hgps]; exact hl)
    (by rw [hvc, hgps, hoL, hoR]; exact hb)
  rw [check_all_gps, check_all_turnSignal]
  rw [hgps] at h
  exact h

/-- C17 (amended): a blocked lane change is consumed. For every state with cruise
control active and more than one lane whose velocity is still not 0 when the
lane-change policy runs (after the obstacle-braking, pending-acceleration and
pending-braking steps of the tick), if the turn signal is Left (-1) and
(`objectLeft` is true or `lane = 1`), or the signal is Right (1) and (`objectRight`
is true or `lane = numberOfLanes`), then after the tick the lane is unchanged and the
turn signal is None (0). -/
theorem check_all_blocked_lane_change (p : Planning)
    (hcc : p.vehicleControl.ccActive = true)
    (hv : p.brakeWhenObjectDetected.acc.brk.imu.currentVelocity ≠ 0)
    (hl : p.gps.numberOfLanes > 1)
    (hb : (p.vehicleControl.turnSignal = -1
          ∧ (p.sensorsAndCameras.objectLeft = true ∨ p.gps.laneNumber = 1))
      ∨ (p.vehicleControl.turnSignal = 1
          ∧ (p.sensorsAndCameras.objectRight = true
            ∨ p.gps.laneNumber = p.gps.numberOfLanes))) :
    p.check_all.gps.laneNumber = p.gps.laneNumber
    ∧ p.check_all.vehicleControl.turnSignal = 0 :=
  check_all_of_blocked_request p hcc hv hl hb

/-- Witness of C17 (amended): Scenario D (signal Left, object on the left, 3 lanes,
lane 2, velocity 30): the lane stays 2 and the signal becomes None. -/
theorem check_all_blocked_lane_change_witness :
    scenarioD.check_all.gps.laneNumber = scenarioD.gps.laneNumber
    ∧ scenarioD.check_all.vehicleControl.turnSignal = 0 :=
  check_all_blocked_lane_change scenarioD (by decide!) (by decide!) (by decide!) (by decide!)

/-- C18 (counterexample): in Scenario D (gear Drive, cruise control active, velocity
30, 3 lanes, lane 2, signal Left, object on the left) the snapshot produced by one
tick has `lane_warning = -1`, not 0: the tick consumes the signal before the snapshot
is computed. -/
theorem tick_clears_blocked_turn_warning :
    scenarioD.vehicleControl.gear = 3
    ∧ scenarioD.vehicleControl.ccActive = true
    ∧ scenarioD.imu.currentVelocity ≠ 0
    ∧ scenarioD.gps.numberOfLanes > 1
    ∧ scenarioD.vehicleControl.turnSignal = -1
    ∧ scenarioD.sensorsAndCameras.objectLeft = true
    ∧ scenarioD.tick.display.status.lane_warning = -1
    ∧ scenarioD.tick.display.status.lane_warning ≠ 0 := by
  decide!

/-- C18 (amended): the blocked-turn warning around the tick. For every state with
cruise control active, more than one lane, turn signal Left (-1) and `objectLeft`
true: the snapshot recomputed by `updateDisplay` before the tick, as `run_systems`
does right after the turn-signal command, has `lane_warning = 0`, the blocked-left
warning; and when the velocity is still not 0 as the lane-change policy runs, the
tick consumes the signal and the snapshot it produces has `lane_warning = -1`. -/
theorem blocked_turn_warning_around_tick (p : Planning)
    (hcc : p.vehicleControl.ccActive = true)
    (hv : p.brakeWhenObjectDetected.acc.brk.imu.currentVelocity ≠ 0)
    (hl : p.gps.numberOfLanes > 1)
    (ht : p.vehicleControl.turnSignal = -1)
    (ho : p.sensorsAndCameras.objectLeft = true) :
    p.updateDisplay.display.status.lane_warning = 0
    ∧ p.tick.display.status.lane_warning = -1 := by
  constructor
  · rw [updateDisplay_normal p]
    simp [ht, ho]
  · have h := (check_all_of_blocked_request p hcc hv hl (Or.inl ⟨ht, Or.inl ho⟩)).2
    unfold tick
    exact updateDisplay_lane_warning_of_no_signal _ h

/-- Witness of C18 (amended): Scenario D. -/
theorem blocked_turn_warning_around_tick_witness :
    scenarioD.updateDisplay.display.status.lane_warning = 0
    ∧ scenarioD.tick.display.status.lane_warning = -1 :=
  blocked_turn_warning_around_tick scenarioD (by decide!) (by decide!) (by decide!)
    (by decide!) (by decide!)

/-! ## Headlights and high beams after a tick -/

/-- The level after one round of the headlight rule `a` and the high-beam rule `h`,
starting from Off, Low or High: it is Off exactly under the switch-off condition `D`
and High exactly under the high-beam condition `H`. -/
theorem headlight_level_after_round (L D H : Prop) [Decidable L] [Decidable D] [Decidable H]
    (hD : D ↔ ¬ L) (hH : H → L) (a h : Int → Int)
    (ha : ∀ y, a y = if L ∧ y = 0 then 1 else if D ∧ y > 0 then 0 else y)
    (hh : ∀ y, h y = if H then (if y = 1 then 2 else y) else if y = 2 then 1 else y)
    (x : Int) (hx : x = 0 ∨ x = 1 ∨ x = 2) :
    (h (a x) = 0 ↔ D) ∧ (h (a x) = 2 ↔ H) := by
  by_cases hl : L
  · have hd : ¬ D := fun hd => (hD.mp hd) hl
    by_cases hn : H
    · rcases hx with rfl | rfl | rfl <;> simp [ha, hh, hl, hd, hn]
    · rcases hx with rfl | rfl | rfl <;> simp [ha, hh, hl, hd, hn]
  · have hd : D := hD.mpr hl
    have hn : ¬ H := fun hn => hl (hH hn)
    rcases hx with rfl | rfl | rfl <;> simp [ha, hh, hl, hd, hn]

/-- The switch-off condition of the headlights is the negation of the switch-on
condition, and the high-beam condition implies the switch-on condition. -/
theorem light_conditions (ll v df : ℚ) (rn : Bool) :
    ((ll ≥ 200 ∧ rn = false) ↔ ¬ (ll < 200 ∨ rn = true))
    ∧ ((ll < 50 ∧ v > 25 ∧ rn = false ∧ df ≥ 100) → (ll < 200 ∨ rn = true)) := by
  constructor
  · constructor
    · rintro ⟨h1, h2⟩ h
      rcases h with h | h
      · exact absurd h1 (not_le.mpr h)
      · rw [h2] at h; exact absurd h (by decide)
    · intro h
      constructor
      · exact not_lt.mp (fun h1 => h (Or.inl h1))
      · cases rn
        · rfl
        · exact absurd (Or.inr rfl) h
  · rintro ⟨h1, -⟩
    left
    linarith

/-- The headlight level after the headlight policy and the high-beam policy, from
Off, Low or High: Off exactly when it is bright and dry, High exactly under the
high-beam condition. -/
theorem Planning.headlights_round_level (p : Planning)
    (hx : p.vehicleControl.headlightLevel = 0 ∨ p.vehicleControl.headlightLevel = 1
      ∨ p.vehicleControl.headlightLevel = 2) :
    (p.automaticHeadLights.automaticaHighBeams.vehicleControl.headlightLevel = 0
      ↔ (p.sensorsAndCameras.lightLevel ≥ 200 ∧ p.sensorsAndCameras.rainDetected = false))
    ∧ (p.automaticHeadLights.automaticaHighBeams.vehicleControl.headlightLevel = 2
      ↔ (p.sensorsAndCameras.lightLevel < 50 ∧ p.imu.currentVelocity > 25
        ∧ p.sensorsAndCameras.rainDetected = false
        ∧ p.sensorsAndCameras.distanceInFront ≥ 100)) := by
  obtain ⟨⟨cc, ww, hl, g, ts⟩, ⟨v⟩, sc, gps, ⟨ll, df, db, oR, oL, rn⟩, d, wa, wb, sw⟩ := p
  simp only [automaticaHighBeams_eq, automaticHeadLights_eq]
  exact headlight_level_after_round (ll < 200 ∨ rn = true) (ll ≥ 200 ∧ rn = false)
    (ll < 50 ∧ v > 25 ∧ rn = false ∧ df ≥ 100) (light_conditions ll v df rn).1
    (light_conditions ll v df rn).2
    (fun y => if (ll < 200 ∨ rn = true) ∧ y = 0 then 1
      else if (ll ≥ 200 ∧ rn = false) ∧ y > 0 then 0 else y)
    (fun y => if ll < 50 ∧ v > 25 ∧ rn = false ∧ df ≥ 100 then (if y = 1 then 2 else y)
      else if y = 2 then 1 else y)
    (fun _ => rfl) (fun _ => rfl) hl hx

/-- C14: automatic headlights. For every state whose headlight level is Off (0),
Low (1) or High (2), whatever the gear, the velocity and the pending intents, after
one tick the headlights are Off if and only if `lightLevel >= 200` and it is not
raining; the level before the tick plays no part in the condition. -/
theorem check_all_headlights_off_iff (p : Planning)
    (hx : p.vehicleControl.headlightLevel = 0 ∨ p.vehicleControl.headlightLevel = 1
      ∨ p.vehicleControl.headlightLevel = 2) :
    p.check_all.vehicleControl.headlightLevel = 0
      ↔ (p.sensorsAndCameras.lightLevel ≥ 200 ∧ p.sensorsAndCameras.rainDetected = false) := by
  have hq := intent_steps_eq p
  have hvc : p.brakeWhenObjectDetected.acc.brk.vehicleControl = p.vehicleControl := by
    rw [hq]
  have hll : p.brakeWhenObjectDetected.acc.brk.sensorsAndCameras.lightLevel
      = p.sensorsAndCameras.lightLevel := by rw [hq]
  have hrn : p.brakeWhenObjectDetected.acc.brk.sensorsAndCameras.rainDetected
      = p.sensorsAndCameras.rainDetected := by rw [hq]
  have h := (headlights_round_level p.brakeWhenObjectDetected.acc.brk
    (by rw [hvc]; exact hx)).1
  rw [hll, hrn] at h
  rw [check_all_headlightLevel]
  exact h

/-- Witness of C14: Scenario C, dark and dry with the headlights on Low: after the
tick they are not Off. -/
theorem check_all_headlights_off_iff_witness :
    scenarioC.check_all.vehicleControl.headlightLevel = 0
      ↔ (scenarioC.sensorsAndCameras.lightLevel ≥ 200
        ∧ scenarioC.sensorsAndCameras.rainDetected = false) :=
  check_all_headlights_off_iff scenarioC (by decide!)

/-- C15: high beams. For every state with gear Drive (3), no pending intent,
`distanceFront >= 100` and headlight level Off (0), Low (1) or High (2), after one
tick the headlight level is High if and only if `lightLevel < 50`, the velocity is
over 25 and it is not raining, whatever the level was before the tick. -/
theorem check_all_high_beams_iff (p : Planning)
    (hg : p.vehicleControl.gear = 3)
    (ha : p.wantsToAcc = false) (hb : p.wantsToBrk = false)
    (hd : p.sensorsAndCameras.distanceInFront ≥ 100)
    (hx : p.vehicleControl.headlightLevel = 0 ∨ p.vehicleControl.headlightLevel = 1
      ∨ p.vehicleControl.headlightLevel = 2) :
    p.check_all.vehicleControl.headlightLevel = 2
      ↔ (p.sensorsAndCameras.lightLevel < 50 ∧ p.imu.currentVelocity > 25
        ∧ p.sensorsAndCameras.rainDetected = false) := by
  have h1 : p.brakeWhenObjectDetected = p :=
    brakeWhenObjectDetected_of_idle p (fun _ _ => Or.inr hd)
      (fun h => by rw [hg] at h; exact absurd h (by decide))
  have hq : p.brakeWhenObjectDetected.acc.brk = p := by
    rw [h1, acc_of_no_intent p ha, brk_of_no_intent p hb]
  rw [check_all_headlightLevel, hq, (headlights_round_level p hx).2]
  constructor
  · rintro ⟨a1, a2, a3, -⟩
    exact ⟨a1, a2, a3⟩
  · rintro ⟨a1, a2, a3⟩
    exact ⟨a1, a2, a3, hd⟩

/-- Witness of C15: Scenario C (light level 30, no rain, velocity 40, front distance
150, headlights on Low): after one tick the headlights are on High. -/
theorem check_all_high_beams_iff_witness :
    scenarioC.vehicleControl.headlightLevel = 1
    ∧ scenarioC.check_all.vehicleControl.headlightLevel = 2 :=
  ⟨by decide!, (check_all_high_beams_iff scenarioC (by decide!) (by decide!) (by decide!)
    (by decide!) (by decide!)).mpr (by decide!)⟩

/-! ## Pending intents -/

namespace Planning

/-- Obstacle braking never sets an intent. -/
theorem brakeWhenObjectDetected_intents (p : Planning) :
    (p.brakeWhenObjectDetected.wantsToAcc = true → p.wantsToAcc = true)
    ∧ p.brakeWhenObjectDetected.wantsToBrk = p.wantsToBrk := by
  constructor
  · unfold brakeWhenObjectDetected
    split_ifs <;> intro h <;> first | exact h | exact absurd h (by decide)
  · rw [brakeWhenObjectDetected_eq]

/-- The pending-acceleration step never sets an intent. -/
theorem acc_intents (p : Planning) :
    (p.acc.wantsToAcc = true → p.wantsToAcc = true) ∧ p.acc.wantsToBrk = p.wantsToBrk := by
  constructor
  · intro h
    by_contra hn
    rw [Bool.not_eq_true] at hn
    rw [acc_of_no_intent p hn, hn] at h
    exact absurd h (by decide)
  · rw [acc_eq]

/-- The pending-braking step never sets an intent. -/
theorem brk_intents (p : Planning) :
    p.brk.wantsToAcc = p.wantsToAcc ∧ (p.brk.wantsToBrk = true → p.wantsToBrk = true) := by
  constructor
  · rw [brk_eq]
  · intro h
    by_contra hn
    rw [Bool.not_eq_true] at hn
    rw [brk_of_no_intent p hn, hn] at h
    exact absurd h (by decide)

/-- The policies after the braking and acceleration steps leave the intents alone. -/
theorem check_all_intents_eq (p : Planning) :
    p.check_all.wantsToAcc = p.brakeWhenObjectDetected.acc.brk.wantsToAcc
    ∧ p.check_all.wantsToBrk = p.brakeWhenObjectDetected.acc.brk.wantsToBrk := by
  unfold check_all
  simp only []
  rw [gearControl_eq]
  simp

/-- A tick never sets an intent. -/
theorem check_all_intents (p : Planning) :
    (p.check_all.wantsToAcc = true → p.wantsToAcc = true)
    ∧ (p.check_all.wantsToBrk = true → p.wantsToBrk = true) := by
  rw [(check_all_intents_eq p).1, (check_all_intents_eq p).2]
  constructor
  · intro h
    rw [(brk_intents _).1] at h
    exact (brakeWhenObjectDetected_intents p).1 ((acc_intents _).1 h)
  · intro h
    have h2 := (brk_intents _).2 h
    rw [(acc_intents _).2, (brakeWhenObjectDetected_intents p).2] at h2
    exact h2

/-- One event of the loop keeps the two intents from being set together. -/
theorem stepEvent_intents (p : Planning) (e : IntentEvent)
    (h : ¬ (p.wantsToAcc = true ∧ p.wantsToBrk = true)) :
    ¬ ((p.stepEvent e).wantsToAcc = true ∧ (p.stepEvent e).wantsToBrk = true) := by
  cases e with
  | brakeTo t =>
    simp only [stepEvent]
    rw [updateDisplay_eq]
    unfold vehicleInputBrake
    split_ifs
    · exact h
    · simp
  | accelerateTo t =>
    simp only [stepEvent]
    rw [updateDisplay_eq]
    unfold vehicleInputAccelerate
    split_ifs
    · exact h
    · simp
  | tick =>
    simp only [stepEvent, tick]
    rw [updateDisplay_eq]
    rintro ⟨h1, h2⟩
    exact h ⟨(check_all_intents p).1 h1, (check_all_intents p).2 h2⟩

end Planning

/-- C11: at most one pending intent. Starting from a state where the accelerate
intent and the brake intent are not both set, after every finite sequence of BrakeTo
commands, AccelerateTo commands (accepted or rejected) and ticks, the two intents are
not both set. -/
theorem runEvents_at_most_one_intent (events : List IntentEvent) (p : Planning)
    (h : ¬ (p.wantsToAcc = true ∧ p.wantsToBrk = true)) :
    ¬ ((p.runEvents events).wantsToAcc = true ∧ (p.runEvents events).wantsToBrk = true) := by
  induction events generalizing p with
  | nil => exact h
  | cons e rest ih =>
    unfold runEvents
    rw [List.foldl_cons]
    exact ih (p.stepEvent e) (stepEvent_intents p e h)

/-- Witness of C11: from the start state, an accelerate command to 80, a tick, a
brake command to 30 and another tick. -/
theorem runEvents_at_most_one_intent_witness :
    ¬ ((startState.runEvents [IntentEvent.accelerateTo 80, IntentEvent.tick,
          IntentEvent.brakeTo 30, IntentEvent.tick]).wantsToAcc = true
      ∧ (startState.runEvents [IntentEvent.accelerateTo 80, IntentEvent.tick,
          IntentEvent.brakeTo 30, IntentEvent.tick]).wantsToBrk = true) :=
  runEvents_at_most_one_intent _ startState (by decide!)

/-! ## The pending-acceleration and pending-braking steps -/

/-- C12: the pending-acceleration step equals its reference definition. With an
accelerate intent to target `t = speed_wanted`, in gear Drive (3) the new velocity is
`min t s` with `s = 12` if the velocity is at most 10 and `s = 1.10 * velocity`
otherwise, the front distance decreases by 10 and the rear distance increases by 10;
in gear Reverse (1) the new velocity is `max t s` with `s = -12` if the velocity is
at least -10 and `s = 1.10 * velocity` otherwise, the front distance increases by 10
and the rear distance is unchanged; in both gears the intent is cleared by that step
if and only if the new velocity equals `t` exactly. -/
theorem acc_eq_accelerateReference (p : Planning)
    (hw : p.wantsToAcc = true)
    (hg : p.vehicleControl.gear = 3 ∨ p.vehicleControl.gear = 1) :
    p.acc.imu.currentVelocity
      = (accelerateReference p.vehicleControl.gear p.imu.currentVelocity
          p.sensorsAndCameras.distanceInFront p.sensorsAndCameras.distanceBehind
          p.speed_wanted).1
    ∧ p.acc.sensorsAndCameras.distanceInFront
      = (accelerateReference p.vehicleControl.gear p.imu.currentVelocity
          p.sensorsAndCameras.distanceInFront p.sensorsAndCameras.distanceBehind
          p.speed_wanted).2.1
    ∧ p.acc.sensorsAndCameras.distanceBehind
      = (accelerateReference p.vehicleControl.gear p.imu.currentVelocity
          p.sensorsAndCameras.distanceInFront p.sensorsAndCameras.distanceBehind
          p.speed_wanted).2.2
    ∧ (p.acc.wantsToAcc = false ↔ p.acc.imu.currentVelocity = p.speed_wanted) := by
  obtain ⟨⟨cc, ww, hl, g, ts⟩, ⟨v⟩, sc, gps, ⟨ll, df, db, oR, oL, rn⟩, d, wa, wb, sw⟩ := p
  simp only at hw hg
  subst hw
  rcases hg with rfl | rfl
  · by_cases h10 : v ≤ 10
    · by_cases ht : (12 : ℚ) ≥ sw
      · have ht2 : (sw : ℚ) ≤ 12 := ht
        simp [acc, callAccelerateTo, VehicleControl.accelerateTo, accelerateReference, h10,
          ht2, min_eq_left ht2]
        norm_num [ht2]
      · have ht2 : (12 : ℚ) < sw := not_le.mp ht
        have ht3 : ¬ (sw : ℚ) ≤ 12 := not_le.mpr ht2
        simp [acc, callAccelerateTo, VehicleControl.accelerateTo, accelerateReference, h10,
          ht3, min_eq_right ht2.le]
        norm_num [ht3, ht2.ne]
    · by_cases ht : v * (110 / 100) ≥ sw
      · have ht2 : (sw : ℚ) ≤ 110 / 100 * v := by linarith
        simp [acc, callAccelerateTo, VehicleControl.accelerateTo, accelerateReference, h10,
          ht, min_eq_left ht2]
      · have ht2 : 110 / 100 * v < sw := by linarith [not_le.mp ht]
        simp [acc, callAccelerateTo, VehicleControl.accelerateTo, accelerateReference, h10,
          ht, min_eq_right ht2.le]
        constructor
        · ring
        · intro h; linarith
  · by_cases h10 : v ≥ -10
    · by_cases ht : (-12 : ℚ) ≤ sw
      · simp [acc, callAccelerateTo, VehicleControl.accelerateTo, accelerateReference, h10,
          ht, max_eq_left ht]
        norm_num [ht]
      · have ht2 : (sw : ℚ) < -12 := not_le.mp ht
        simp [acc, callAccelerateTo, VehicleControl.accelerateTo, accelerateReference, h10,
          ht, max_eq_right ht2.le]
        norm_num [ht, ht2.ne']
    · by_cases ht : v * (110 / 100) ≤ sw
      · have ht2 : 110 / 100 * v ≤ (sw : ℚ) := by linarith
        simp [acc, callAccelerateTo, VehicleControl.accelerateTo, accelerateReference, h10,
          ht, max_eq_left ht2]
      · have ht2 : (sw : ℚ) < 110 / 100 * v := by linarith [not_le.mp ht]
        simp [acc, callAccelerateTo, VehicleControl.accelerateTo, accelerateReference, h10,
          ht, max_eq_right ht2.le]
        constructor
        · ring
        · intro h; linarith


/-- Witness of C12: the start state (Drive, velocity 60) with an intent to accelerate
to 80. -/
theorem acc_eq_accelerateReference_witness :
    acceleratingState.acc.imu.currentVelocity
      = (accelerateReference acceleratingState.vehicleControl.gear
          acceleratingState.imu.currentVelocity
          acceleratingState.sensorsAndCameras.distanceInFront
          acceleratingState.sensorsAndCameras.distanceBehind
          acceleratingState.speed_wanted).1
    ∧ acceleratingState.acc.sensorsAndCameras.distanceInFront
      = (accelerateReference acceleratingState.vehicleControl.gear
          acceleratingState.imu.currentVelocity
          acceleratingState.sensorsAndCameras.distanceInFront
          acceleratingState.sensorsAndCameras.distanceBehind
          acceleratingState.speed_wanted).2.1
    ∧ acceleratingState.acc.sensorsAndCameras.distanceBehind
      = (accelerateReference acceleratingState.vehicleControl.gear
          acceleratingState.imu.currentVelocity
          acceleratingState.sensorsAndCameras.distanceInFront
          acceleratingState.sensorsAndCameras.distanceBehind
          acceleratingState.speed_wanted).2.2
    ∧ (acceleratingState.acc.wantsToAcc = false
        ↔ acceleratingState.acc.imu.currentVelocity = acceleratingState.speed_wanted) :=
  acc_eq_accelerateReference acceleratingState (by decide!) (by decide!)

/-- The pending-braking step in Drive with a target `t = speed_wanted`,
`0 <= t <= v`: the new velocity is `max t b` with `b` the decayed velocity, it lies
between `t` and `v`, and the intent is cleared exactly when the target is reached. -/
theorem Planning.brk_of_drive (p : Planning)
    (hw : p.wantsToBrk = true)
    (hg : p.vehicleControl.gear = 3)
    (h0 : 0 ≤ p.speed_wanted)
    (hv : (p.speed_wanted : ℚ) ≤ p.imu.currentVelocity) :
    (p.callBrakeTo p.speed_wanted).imu.currentVelocity
      = brakeToReference p.imu.currentVelocity p.speed_wanted
    ∧ p.brk.imu.currentVelocity = brakeToReference p.imu.currentVelocity p.speed_wanted
    ∧ (p.speed_wanted : ℚ) ≤ p.brk.imu.currentVelocity
    ∧ p.brk.imu.currentVelocity ≤ p.imu.currentVelocity
    ∧ ((if 90 / 100 * p.imu.currentVelocity ≥ 5 then 90 / 100 * p.imu.currentVelocity else 0)
        ≤ (p.speed_wanted : ℚ) → p.brk.imu.currentVelocity = p.speed_wanted)
    ∧ (p.brk.wantsToBrk = false ↔ p.brk.imu.currentVelocity = p.speed_wanted) := by
  obtain ⟨⟨cc, ww, hl, g, ts⟩, ⟨v⟩, sc, gps, ⟨ll, df, db, oR, oL, rn⟩, d, wa, wb, sw⟩ := p
  simp only at hw hg h0 hv
  subst hw
  subst hg
  have h0q : (0 : ℚ) ≤ sw := by exact_mod_cast h0
  by_cases h5 : v * (90 / 100) < 5
  · have h5b : ¬ (5 ≤ 90 / 100 * v) := by
      intro h; linarith
    by_cases hs : sw < 5
    · have hsq : (sw : ℚ) < 5 := by exact_mod_cast hs
      simp [brk, callBrakeTo, VehicleControl.brakeTo, VehicleControl.brake, brakeToReference,
        h5, h5b, h0q, hs, hsq, hv]
    · have hsq : ¬ (sw : ℚ) < 5 := by
        intro h; exact hs (by exact_mod_cast h)
      simp [brk, callBrakeTo, VehicleControl.brakeTo, VehicleControl.brake, brakeToReference,
        h5, h5b, h0q, hs, hsq, hv]
  · have h5b : 5 ≤ 90 / 100 * v := by linarith [not_lt.mp h5]
    by_cases ht : v * (90 / 100) ≤ sw
    · have ht2 : 90 / 100 * v ≤ (sw : ℚ) := by linarith
      have hsq : ¬ (sw : ℚ) < 5 := by
        intro h; linarith
      have hs : ¬ sw < 5 := by
        intro h; exact hsq (by exact_mod_cast h)
      simp [brk, callBrakeTo, VehicleControl.brakeTo, VehicleControl.brake, brakeToReference,
        h5, h5b, ht, ht2, hs, hsq, hv]
    · have ht2 : (sw : ℚ) < 90 / 100 * v := by linarith [not_le.mp ht]
      have ht3 : ¬ 90 / 100 * v ≤ (sw : ℚ) := not_le.mpr ht2
      have hvv : 0 ≤ v := by linarith
      simp [brk, callBrakeTo, VehicleControl.brakeTo, VehicleControl.brake, brakeToReference,
        h5, h5b, ht, ht2, ht3, max_eq_right ht2.le]
      refine ⟨by ring, by linarith, by linarith, ?_⟩
      intro h; linarith

/-- C13: the pending-braking step in Drive. For gear Drive (3), velocity `v` and a
brake intent to an integer target `t = speed_wanted` with `0 <= t <= v`, after
`brakeTo(t)` the new velocity is `max t b` with `b = 0.90 * v` if `0.90 * v >= 5` and
`b = 0` otherwise; hence `t <= new velocity <= v`, the velocity is exactly `t` as soon
as the decayed velocity `b` is at most `t`, and `brk` clears the brake intent if and
only if the new velocity equals `t`. -/
theorem brk_drive_eq_brakeToReference (p : Planning)
    (hw : p.wantsToBrk = true)
    (hg : p.vehicleControl.gear = 3)
    (h0 : 0 ≤ p.speed_wanted)
    (hv : (p.speed_wanted : ℚ) ≤ p.imu.currentVelocity) :
    (p.callBrakeTo p.speed_wanted).imu.currentVelocity
      = brakeToReference p.imu.currentVelocity p.speed_wanted
    ∧ p.brk.imu.currentVelocity = brakeToReference p.imu.currentVelocity p.speed_wanted
    ∧ (p.speed_wanted : ℚ) ≤ p.brk.imu.currentVelocity
    ∧ p.brk.imu.currentVelocity ≤ p.imu.currentVelocity
    ∧ ((if 90 / 100 * p.imu.currentVelocity ≥ 5 then 90 / 100 * p.imu.currentVelocity else 0)
        ≤ (p.speed_wanted : ℚ) → p.brk.imu.currentVelocity = p.speed_wanted)
    ∧ (p.brk.wantsToBrk = false ↔ p.brk.imu.currentVelocity = p.speed_wanted) :=
  brk_of_drive p hw hg h0 hv

/-- Witness of C13: the start state (Drive, velocity 60) with an intent to brake to
30. -/
theorem brk_drive_eq_brakeToReference_witness :
    (brakingState.callBrakeTo brakingState.speed_wanted).imu.currentVelocity
      = brakeToReference brakingState.imu.currentVelocity brakingState.speed_wanted
    ∧ brakingState.brk.imu.currentVelocity
      = brakeToReference brakingState.imu.currentVelocity brakingState.speed_wanted
    ∧ (brakingState.speed_wanted : ℚ) ≤ brakingState.brk.imu.currentVelocity
    ∧ brakingState.brk.imu.currentVelocity ≤ brakingState.imu.currentVelocity
    ∧ ((if 90 / 100 * brakingState.imu.currentVelocity ≥ 5
          then 90 / 100 * brakingState.imu.currentVelocity else 0)
        ≤ (brakingState.speed_wanted : ℚ)
        → brakingState.brk.imu.currentVelocity = brakingState.speed_wanted)
    ∧ (brakingState.brk.wantsToBrk = false
        ↔ brakingState.brk.imu.currentVelocity = brakingState.speed_wanted) :=
  brk_drive_eq_brakeToReference brakingState (by decide!) (by decide!) (by decide!)
    (by decide!)

/-! ## Snapshot speed and lane count -/

/-- C21 (counterexample): at velocity 48.6 the snapshot speed is 48, while 48.6
rounded to the nearest integer is 49. -/
theorem updateDisplay_speed_not_rounded :
    cruisingAt48point6.imu.currentVelocity = 486 / 10
    ∧ cruisingAt48point6.updateDisplay.display.status.speed = 48
    ∧ round cruisingAt48point6.imu.currentVelocity = 49
    ∧ cruisingAt48point6.updateDisplay.display.status.speed
        ≠ round cruisingAt48point6.imu.currentVelocity := by
  decide!

/-- C21 (amended): the snapshot speed is the velocity truncated toward zero. For every
velocity `v` the integer speed stored by `updateDisplay` is the floor of `v` when
`v >= 0` and the ceiling of `v` when `v < 0`; so it has at most the magnitude of `v`,
differs from `v` by less than 1, and 48.6 is shown as 48. -/
theorem updateDisplay_speed_truncates (p : Planning) :
    p.updateDisplay.display.status.speed = castToInt p.imu.currentVelocity
    ∧ (0 ≤ p.imu.currentVelocity →
        p.updateDisplay.display.status.speed = ⌊p.imu.currentVelocity⌋
        ∧ (p.updateDisplay.display.status.speed : ℚ) ≤ p.imu.currentVelocity
        ∧ p.imu.currentVelocity < p.updateDisplay.display.status.speed + 1)
    ∧ (p.imu.currentVelocity < 0 →
        p.updateDisplay.display.status.speed = ⌈p.imu.currentVelocity⌉
        ∧ p.imu.currentVelocity ≤ p.updateDisplay.display.status.speed
        ∧ (p.updateDisplay.display.status.speed : ℚ) - 1 < p.imu.currentVelocity) := by
  rw [updateDisplay_normal p]
  refine ⟨rfl, ?_, ?_⟩
  · intro h
    have hc : castToInt p.imu.currentVelocity = ⌊p.imu.currentVelocity⌋ := by
      unfold castToInt
      rw [if_pos h]
    show castToInt p.imu.currentVelocity = ⌊p.imu.currentVelocity⌋
      ∧ (castToInt p.imu.currentVelocity : ℚ) ≤ p.imu.currentVelocity
      ∧ p.imu.currentVelocity < castToInt p.imu.currentVelocity + 1
    rw [hc]
    exact ⟨rfl, Int.floor_le _, Int.lt_floor_add_one _⟩
  · intro h
    have hc : castToInt p.imu.currentVelocity = ⌈p.imu.currentVelocity⌉ := by
      unfold castToInt
      rw [if_neg (not_le.mpr h)]
    show castToInt p.imu.currentVelocity = ⌈p.imu.currentVelocity⌉
      ∧ p.imu.currentVelocity ≤ castToInt p.imu.currentVelocity
      ∧ (castToInt p.imu.currentVelocity : ℚ) - 1 < p.imu.currentVelocity
    rw [hc]
    refine ⟨rfl, Int.le_ceil _, ?_⟩
    have := Int.ceil_lt_add_one p.imu.currentVelocity
    linarith

/-- C22 (failing input): the first snapshot of the state built by `Planning()`. The
navigation has 4 lanes, the snapshot built by `Display()` holds `num_lanes = 1`, and
after `updateDisplay` (also after a whole tick) the snapshot still reports 1 lane:
no step of `updateDisplay` writes the lane count. -/
theorem updateDisplay_keeps_stale_lane_count :
    startState.gps.numberOfLanes = 4
    ∧ startState.display.status.num_lanes = 1
    ∧ startState.updateDisplay.display.status.num_lanes = 1
    ∧ startState.tick.display.status.num_lanes = 1
    ∧ startState.updateDisplay.display.status.lane = startState.gps.laneNumber
    ∧ startState.updateDisplay.display.status.num_lanes ≠ startState.gps.numberOfLanes := by
  decide!

/-- The lane count of the snapshot is never written by `updateDisplay`. -/
theorem Planning.updateDisplay_num_lanes (p : Planning) :
    p.updateDisplay.display.status.num_lanes = p.display.status.num_lanes := by
  rw [updateDisplay_normal p]

/-! ## Road class -/

/-- Every mutator of `GPS` keeps the two road-class flags from being set together. -/
theorem GPS.applyOp_exclusive (g : GPS) (op : GPSOp)
    (h : ¬ (g.isOnHighway = true ∧ g.isOnLocalRoute = true)) :
    ¬ ((g.applyOp op).isOnHighway = true ∧ (g.applyOp op).isOnLocalRoute = true) := by
  cases op with
  | setOnHighway => simp [GPS.applyOp, GPS.setOnHighway, GPS.isOnHighway, GPS.isOnLocalRoute]
  | setOnLocalRoad =>
    simp [GPS.applyOp, GPS.setOnLocalRoad, GPS.isOnHighway, GPS.isOnLocalRoute]
  | setOnUnregisteredRoad =>
    simp [GPS.applyOp, GPS.setOnUnregisteredRoad, GPS.isOnHighway, GPS.isOnLocalRoute]
  | setNumberOfLanes num =>
    simp only [GPS.applyOp, GPS.setNumberOfLanes]
    split_ifs
    · exact h
    · exact h
  | setLaneNumber lane =>
    simp only [GPS.applyOp, GPS.setLaneNumber]
    split_ifs
    · exact h
    · exact h

/-- A sequence of mutators of `GPS` keeps the two road-class flags from being set
together. -/
theorem GPS.applyOps_exclusive (ops : List GPSOp) (g : GPS)
    (h : ¬ (g.isOnHighway = true ∧ g.isOnLocalRoute = true)) :
    ¬ ((g.applyOps ops).isOnHighway = true ∧ (g.applyOps ops).isOnLocalRoute = true) := by
  induction ops generalizing g with
  | nil => exact h
  | cons op rest ih =>
    unfold GPS.applyOps
    rw [List.foldl_cons]
    exact ih (g.applyOp op) (GPS.applyOp_exclusive g op h)

/-- For every `GPS` value, `isOnUnregisteredRoad` holds exactly when both road-class
flags are false. -/
theorem GPS.isOnUnregisteredRoad_iff (g : GPS) :
    g.isOnUnregisteredRoad = true ↔ (g.isOnHighway = false ∧ g.isOnLocalRoute = false) := by
  unfold GPS.isOnUnregisteredRoad GPS.isOnHighway GPS.isOnLocalRoute
  cases g.onHighway <;> cases g.onLocalRoute <;> decide

/-- C23: the road class is mutually exclusive. For a `GPS` built by the default
constructor or by `GPS(H, L, num_lanes, lane)` with any arguments, and after every
finite sequence of `setOnHighway`, `setOnLocalRoad`, `setOnUnregisteredRoad`,
`setNumberOfLanes` and `setLaneNumber`, `isOnHighway` and `isOnLocalRoute` are never
both true, and `isOnUnregisteredRoad` holds exactly when both are false; `H` and `L`
both true yields an unregistered road. -/
theorem gps_road_class_exclusive (ops : List GPSOp) (H L : Bool) (num_lanes lane : Int) :
    ¬ ((GPS.mk0.applyOps ops).isOnHighway = true ∧ (GPS.mk0.applyOps ops).isOnLocalRoute = true)
    ∧ ((GPS.mk0.applyOps ops).isOnUnregisteredRoad = true
        ↔ ((GPS.mk0.applyOps ops).isOnHighway = false
          ∧ (GPS.mk0.applyOps ops).isOnLocalRoute = false))
    ∧ ¬ (((GPS.mk4 H L num_lanes lane).applyOps ops).isOnHighway = true
        ∧ ((GPS.mk4 H L num_lanes lane).applyOps ops).isOnLocalRoute = true)
    ∧ (((GPS.mk4 H L num_lanes lane).applyOps ops).isOnUnregisteredRoad = true
        ↔ (((GPS.mk4 H L num_lanes lane).applyOps ops).isOnHighway = false
          ∧ ((GPS.mk4 H L num_lanes lane).applyOps ops).isOnLocalRoute = false))
    ∧ (GPS.mk4 true true num_lanes lane).isOnUnregisteredRoad = true := by
  refine ⟨?_, GPS.isOnUnregisteredRoad_iff _, ?_, GPS.isOnUnregisteredRoad_iff _, ?_⟩
  · apply GPS.applyOps_exclusive
    decide
  · apply GPS.applyOps_exclusive
    cases H <;> cases L <;> simp [GPS.mk4, GPS.isOnHighway, GPS.isOnLocalRoute]
  · simp [GPS.mk4, GPS.isOnUnregisteredRoad]

/-! ## Cruise control after a tick -/

/-- What `gearControl` does to the cruise-control flag in Drive: it is switched on
when it was off, the road is a highway and the velocity it leaves is positive, and it
is never switched off. -/
theorem Planning.gearControl_ccActive_of_drive (p : Planning)
    (hg : p.vehicleControl.gear = 3) :
    (p.vehicleControl.ccActive = false →
      (p.gearControl.vehicleControl.ccActive = true
        ↔ (p.gps.isOnHighway = true ∧ p.gearControl.imu.currentVelocity > 0)))
    ∧ (p.vehicleControl.ccActive = true → p.gearControl.vehicleControl.ccActive = true) := by
  obtain ⟨⟨cc, ww, hl, g, ts⟩, ⟨v⟩, sc, gps, sen, d, wa, wb, sw⟩ := p
  simp only at hg
  subst hg
  constructor
  · intro hc
    simp only at hc
    subst hc
    by_cases hv : v < 0
    · have hv2 : ¬ (0 : ℚ) < 0 := lt_irrefl 0
      simp [gearControl, VehicleControl.startCC, VehicleControl.stopCC, hv, hv2]
    · simp [gearControl, VehicleControl.startCC, VehicleControl.stopCC, hv]
      by_cases hh : gps.isOnHighway = true ∧ 0 < v
      · simp [hh]
      · simp [hh]
  · intro hc
    simp only at hc
    subst hc
    by_cases hv : v < 0
    · simp [gearControl, VehicleControl.startCC, VehicleControl.stopCC, hv]
    · simp [gearControl, VehicleControl.startCC, VehicleControl.stopCC, hv]


/-- C24: cruise-control auto-enable. For every state with gear Drive (3): if cruise
control is off before the tick, it is on after the tick if and only if the road class
is Highway and the velocity after the tick is positive; if it is already on, it stays
on. -/
theorem check_all_cruise_auto_enable (p : Planning)
    (hg : p.vehicleControl.gear = 3) :
    (p.vehicleControl.ccActive = false →
      (p.check_all.vehicleControl.ccActive = true
        ↔ (p.gps.isOnHighway = true ∧ p.check_all.imu.currentVelocity > 0)))
    ∧ (p.vehicleControl.ccActive = true → p.check_all.vehicleControl.ccActive = true) := by
  have hq := intent_steps_eq p
  have hvc : p.brakeWhenObjectDetected.acc.brk.vehicleControl = p.vehicleControl := by
    rw [hq]
  have hgps : p.brakeWhenObjectDetected.acc.brk.gps = p.gps := by rw [hq]
  have h := gearControl_ccActive_of_drive
    p.brakeWhenObjectDetected.acc.brk.automaticHeadLights.automaticallyChangeLane.automaticaHighBeams.automaticWindshieldWipers
    (by simpa using hg)
  have hcc : p.brakeWhenObjectDetected.acc.brk.automaticHeadLights.automaticallyChangeLane.automaticaHighBeams.automaticWindshieldWipers.vehicleControl.ccActive
      = p.vehicleControl.ccActive := by
    simp [hvc]
  have hhw : p.brakeWhenObjectDetected.acc.brk.automaticHeadLights.automaticallyChangeLane.automaticaHighBeams.automaticWindshieldWipers.gps.isOnHighway
      = p.gps.isOnHighway := by
    simp [GPS.isOnHighway, hgps]
  rw [hcc, hhw] at h
  exact h

/-- Witness of C24: the start state (Drive, highway, velocity 60) with cruise control
switched off: after the tick cruise control is on. -/
theorem check_all_cruise_auto_enable_witness :
    cruiseOffState.vehicleControl.ccActive = false
    ∧ cruiseOffState.check_all.vehicleControl.ccActive = true :=
  ⟨by decide!, ((check_all_cruise_auto_enable cruiseOffState (by decide!)).1 (by decide!)).mpr
    (by decide!)⟩

/-! ## Safety of `brake` -/

/-- The velocity after `brake` is either 0 or the old velocity scaled by a factor in
`(0, 1]`. -/
theorem VehicleControl.brake_velocity_cases (vc : VehicleControl) (imu : IMU)
    (sc : SensorsAndCameras) (i : Int) :
    (vc.brake imu sc i).1.currentVelocity = 0
    ∨ ∃ f : ℚ, 0 < f ∧ f ≤ 1 ∧ (vc.brake imu sc i).1.currentVelocity = imu.currentVelocity * f := by
  unfold VehicleControl.brake
  simp only []
  split_ifs
  all_goals first
    | exact Or.inl rfl
    | exact Or.inr ⟨95 / 100, by norm_num, by norm_num, rfl⟩
    | exact Or.inr ⟨90 / 100, by norm_num, by norm_num, rfl⟩
    | exact Or.inr ⟨85 / 100, by norm_num, by norm_num, rfl⟩

/-- The front distance after `brake` is the old one or the old one plus a positive
margin. -/
theorem VehicleControl.brake_distanceInFront_ge (vc : VehicleControl) (imu : IMU)
    (sc : SensorsAndCameras) (i : Int) :
    sc.distanceInFront ≤ (vc.brake imu sc i).2.distanceInFront := by
  unfold VehicleControl.brake
  simp only []
  split_ifs
  all_goals first
    | exact le_refl _
    | (show sc.distanceInFront ≤ sc.distanceInFront + _; linarith)

/-- C28: `brake` never speeds the vehicle up. For every gear, every intensity and
every velocity `v`, the velocity `v'` after `brake(intensity)` satisfies
`|v'| <= |v|` and has the same sign as `v` or is 0; the front distance never
decreases and the rear distance is unchanged. -/
theorem brake_never_speeds_up (vc : VehicleControl) (imu : IMU) (sc : SensorsAndCameras)
    (intensity : Int) :
    |(vc.brake imu sc intensity).1.currentVelocity| ≤ |imu.currentVelocity|
    ∧ ((vc.brake imu sc intensity).1.currentVelocity = 0
      ∨ (0 < (vc.brake imu sc intensity).1.currentVelocity ∧ 0 < imu.currentVelocity)
      ∨ ((vc.brake imu sc intensity).1.currentVelocity < 0 ∧ imu.currentVelocity < 0))
    ∧ sc.distanceInFront ≤ (vc.brake imu sc intensity).2.distanceInFront
    ∧ (vc.brake imu sc intensity).2.distanceBehind = sc.distanceBehind := by
  refine ⟨?_, ?_, VehicleControl.brake_distanceInFront_ge vc imu sc intensity,
    VehicleControl.brake_distanceBehind vc imu sc intensity⟩
  · rcases VehicleControl.brake_velocity_cases vc imu sc intensity with h | ⟨f, hf0, hf1, h⟩
    · rw [h, abs_zero]
      exact abs_nonneg _
    · rw [h, abs_mul, abs_of_pos hf0]
      calc |imu.currentVelocity| * f ≤ |imu.currentVelocity| * 1 :=
            mul_le_mul_of_nonneg_left hf1 (abs_nonneg _)
        _ = |imu.currentVelocity| := mul_one _
  · rcases VehicleControl.brake_velocity_cases vc imu sc intensity with h | ⟨f, hf0, hf1, h⟩
    · exact Or.inl h
    · rw [h]
      rcases lt_trichotomy imu.currentVelocity 0 with hv | hv | hv
      · exact Or.inr (Or.inr ⟨mul_neg_of_neg_of_pos hv hf0, hv⟩)
      · exact Or.inl (by rw [hv, zero_mul])
      · exact Or.inr (Or.inl ⟨mul_pos hv hf0, hv⟩)

/-! ## Lane change: perception and lane range -/

/-- C29: a successful lane change rewrites perception. Whenever the lane-change step
shifts the lane to the left it sets `objectRight` to false, and whenever it shifts the
lane to the right it sets `objectLeft` to false; an ungated step (velocity 0, cruise
control off or a single lane) and a blocked step (signal toward an occupied side or
toward the edge of the road) leave `objectLeft` and `objectRight` unchanged; and in
every case light level, rain and the front and back distances are unchanged. -/
theorem automaticallyChangeLane_perception (p : Planning) :
    (p.automaticallyChangeLane.gps.laneNumber < p.gps.laneNumber →
      p.automaticallyChangeLane.sensorsAndCameras.objectRight = false)
    ∧ (p.gps.laneNumber < p.automaticallyChangeLane.gps.laneNumber →
      p.automaticallyChangeLane.sensorsAndCameras.objectLeft = false)
    ∧ ((p.imu.currentVelocity = 0 ∨ p.vehicleControl.ccActive = false
        ∨ p.gps.numberOfLanes ≤ 1) →
      p.automaticallyChangeLane.sensorsAndCameras.objectLeft = p.sensorsAndCameras.objectLeft
      ∧ p.automaticallyChangeLane.sensorsAndCameras.objectRight
          = p.sensorsAndCameras.objectRight)
    ∧ (((p.vehicleControl.turnSignal < 0
          ∧ (p.sensorsAndCameras.objectLeft = true ∨ p.gps.laneNumber ≤ 1))
        ∨ (p.vehicleControl.turnSignal > 0
          ∧ (p.sensorsAndCameras.objectRight = true
            ∨ p.gps.numberOfLanes ≤ p.gps.laneNumber))) →
      p.automaticallyChangeLane.sensorsAndCameras.objectLeft = p.sensorsAndCameras.objectLeft
      ∧ p.automaticallyChangeLane.sensorsAndCameras.objectRight
          = p.sensorsAndCameras.objectRight)
    ∧ p.automaticallyChangeLane.sensorsAndCameras.lightLevel = p.sensorsAndCameras.lightLevel
    ∧ p.automaticallyChangeLane.sensorsAndCameras.rainDetected
        = p.sensorsAndCameras.rainDetected
    ∧ p.automaticallyChangeLane.sensorsAndCameras.distanceInFront
        = p.sensorsAndCameras.distanceInFront
    ∧ p.automaticallyChangeLane.sensorsAndCameras.distanceBehind
        = p.sensorsAndCameras.distanceBehind := by
  refine ⟨?_, ?_, ?_, ?_, ?_, ?_, ?_, ?_⟩
  · unfold automaticallyChangeLane GPS.setLaneNumber
    split_ifs <;> intro h <;> first | rfl | omega | (simp only [] at h; omega)
  · unfold automaticallyChangeLane GPS.setLaneNumber
    split_ifs <;> intro h <;> first | rfl | omega | (simp only [] at h; omega)
  · intro h
    have hgate : ¬ (p.imu.currentVelocity ≠ 0 ∧ p.vehicleControl.ccActive = true
        ∧ p.gps.numberOfLanes > 1) := by
      rintro ⟨h1, h2, h3⟩
      rcases h with h | h | h
      · exact h1 h
      · rw [h] at h2; exact absurd h2 (by decide)
      · omega
    unfold automaticallyChangeLane
    rw [if_neg hgate]
    exact ⟨rfl, rfl⟩
  · intro h
    unfold automaticallyChangeLane
    split_ifs with c1 c2 c3 c4 c5
    · exfalso
      rcases h with ⟨-, ho⟩ | ⟨ht, -⟩
      · rcases ho with ho | ho
        · rw [ho] at c3; exact absurd c3.1 (by decide)
        · omega
      · omega
    · exact ⟨rfl, rfl⟩
    · exfalso
      rcases h with ⟨ht, -⟩ | ⟨-, ho⟩
      · omega
      · rcases ho with ho | ho
        · rw [ho] at c5; exact absurd c5.1 (by decide)
        · omega
    · exact ⟨rfl, rfl⟩
    · exact ⟨rfl, rfl⟩
    · exact ⟨rfl, rfl⟩
  · rw [automaticallyChangeLane_eq]
  · rw [automaticallyChangeLane_eq]
  · rw [automaticallyChangeLane_eq]
  · rw [automaticallyChangeLane_eq]

/-- The lane-change step keeps the lane count, keeps an in-range lane in range and
moves it by at most one. -/
theorem Planning.automaticallyChangeLane_lane_bounds (p : Planning)
    (h1 : 1 ≤ p.gps.laneNumber) (h2 : p.gps.laneNumber ≤ p.gps.numberOfLanes) :
    p.automaticallyChangeLane.gps.numberOfLanes = p.gps.numberOfLanes
    ∧ 1 ≤ p.automaticallyChangeLane.gps.laneNumber
    ∧ p.automaticallyChangeLane.gps.laneNumber ≤ p.gps.numberOfLanes
    ∧ p.automaticallyChangeLane.gps.laneNumber - p.gps.laneNumber ≤ 1
    ∧ p.gps.laneNumber - p.automaticallyChangeLane.gps.laneNumber ≤ 1 := by
  unfold automaticallyChangeLane GPS.setLaneNumber
  split_ifs <;> refine ⟨rfl, ?_, ?_, ?_, ?_⟩ <;> (try dsimp only) <;> omega

/-- C25: a tick keeps the lane in range. For every state with
`1 <= lane <= numberOfLanes`, whatever the signal, the object flags, the gear, the
velocity and the intents, after one tick (`check_all`) the lane count is unchanged,
`1 <= lane' <= numberOfLanes`, and the lane has moved by at most 1; and when cruise
control is off, the velocity is 0 or there is a single lane, the lane-change step
leaves both the lane and the turn signal unchanged. -/
theorem check_all_lane_in_range (p : Planning)
    (h1 : 1 ≤ p.gps.laneNumber) (h2 : p.gps.laneNumber ≤ p.gps.numberOfLanes) :
    p.check_all.gps.numberOfLanes = p.gps.numberOfLanes
    ∧ 1 ≤ p.check_all.gps.laneNumber
    ∧ p.check_all.gps.laneNumber ≤ p.gps.numberOfLanes
    ∧ p.check_all.gps.laneNumber - p.gps.laneNumber ≤ 1
    ∧ p.gps.laneNumber - p.check_all.gps.laneNumber ≤ 1
    ∧ ((p.vehicleControl.ccActive = false ∨ p.imu.currentVelocity = 0
        ∨ p.gps.numberOfLanes ≤ 1) →
      p.automaticallyChangeLane.gps.laneNumber = p.gps.laneNumber
      ∧ p.automaticallyChangeLane.vehicleControl.turnSignal = p.vehicleControl.turnSignal) := by
  have hq := intent_steps_eq p
  have hgps : p.brakeWhenObjectDetected.acc.brk.gps = p.gps := by rw [hq]
  have h := automaticallyChangeLane_lane_bounds p.brakeWhenObjectDetected.acc.brk
    (by rw [hgps]; exact h1) (by rw [hgps]; exact h2)
  rw [hgps] at h
  rw [check_all_gps]
  refine ⟨h.1, h.2.1, h.2.2.1, h.2.2.2.1, h.2.2.2.2, ?_⟩
  intro hc
  have hgate : ¬ (p.imu.currentVelocity ≠ 0 ∧ p.vehicleControl.ccActive = true
      ∧ p.gps.numberOfLanes > 1) := by
    rintro ⟨a1, a2, a3⟩
    rcases hc with hc | hc | hc
    · rw [hc] at a2; exact absurd a2 (by decide)
    · exact a1 hc
    · omega
  unfold automaticallyChangeLane
  rw [if_neg hgate]
  exact ⟨rfl, rfl⟩

/-- Witness of C25: the start state (4 lanes, lane 2) with the turn signal Left and
nothing on the left. -/
theorem check_all_lane_in_range_witness :
    signalLeftFree.check_all.gps.numberOfLanes = signalLeftFree.gps.numberOfLanes
    ∧ 1 ≤ signalLeftFree.check_all.gps.laneNumber
    ∧ signalLeftFree.check_all.gps.laneNumber ≤ signalLeftFree.gps.numberOfLanes
    ∧ signalLeftFree.check_all.gps.laneNumber - signalLeftFree.gps.laneNumber ≤ 1
    ∧ signalLeftFree.gps.laneNumber - signalLeftFree.check_all.gps.laneNumber ≤ 1
    ∧ ((signalLeftFree.vehicleControl.ccActive = false
        ∨ signalLeftFree.imu.currentVelocity = 0
        ∨ signalLeftFree.gps.numberOfLanes ≤ 1) →
      signalLeftFree.automaticallyChangeLane.gps.laneNumber = signalLeftFree.gps.laneNumber
      ∧ signalLeftFree.automaticallyChangeLane.vehicleControl.turnSignal
          = signalLeftFree.vehicleControl.turnSignal) :=
  check_all_lane_in_range signalLeftFree (by decide!) (by decide!)

/-! ## Gear changes -/

namespace Planning

/-- The gear command, spelled out: it is applied exactly when the velocity is within
`[-5, 5]` and the requested gear is Park, Reverse or Drive. -/
theorem vehicleInputGear_eq (p : Planning) (g : Int) :
    ((-5 ≤ p.imu.currentVelocity ∧ p.imu.currentVelocity ≤ 5 ∧ (g = 0 ∨ g = 1 ∨ g = 3)) →
      p.vehicleInputGear g = { p with vehicleControl := { p.vehicleControl with gear := g } })
    ∧ (¬ (-5 ≤ p.imu.currentVelocity ∧ p.imu.currentVelocity ≤ 5 ∧ (g = 0 ∨ g = 1 ∨ g = 3)) →
      p.vehicleInputGear g = p) := by
  constructor
  · rintro ⟨h1, h2, h3⟩
    have hv : ¬ (p.imu.currentVelocity < -5 ∨ p.imu.currentVelocity > 5) := by
      rintro (h | h)
      · exact absurd h1 (not_le.mpr h)
      · exact absurd h2 (not_le.mpr h)
    have hr : g ≥ 0 ∧ g ≤ 3 := by omega
    unfold vehicleInputGear VehicleControl.setGear
    rw [if_neg hv, if_pos h3, if_pos hr]
  · intro h
    unfold vehicleInputGear
    split_ifs with c1 c2
    · rfl
    · exfalso
      apply h
      refine ⟨?_, ?_, c2⟩
      · exact not_lt.mp (fun hlt => c1 (Or.inl hlt))
      · exact not_lt.mp (fun hlt => c1 (Or.inr hlt))
    · rfl

/-- The gear command never selects Neutral. -/
theorem vehicleInputGear_gear (p : Planning) (g : Int) (h : p.vehicleControl.gear ≠ 2) :
    (p.vehicleInputGear g).vehicleControl.gear ≠ 2 := by
  by_cases hA : -5 ≤ p.imu.currentVelocity ∧ p.imu.currentVelocity ≤ 5 ∧ (g = 0 ∨ g = 1 ∨ g = 3)
  · rw [(vehicleInputGear_eq p g).1 hA]
    show g ≠ 2
    omega
  · rw [(vehicleInputGear_eq p g).2 hA]
    exact h

/-- No vehicle input selects Neutral. -/
theorem vehicleInput_gear (p : Planning) (input val : Int) (h : p.vehicleControl.gear ≠ 2) :
    (p.vehicleInput input val).vehicleControl.gear ≠ 2 := by
  unfold vehicleInput
  split_ifs
  · exact h
  · unfold vehicleInputBrake
    split_ifs
    · exact h
    · exact h
  · unfold vehicleInputAccelerate
    split_ifs
    · exact h
    · exact h
  · exact vehicleInputGear_gear p val h
  · unfold vehicleInputTurn
    split_ifs
    · exact h
    · exact h
    · exact h
  · exact h

/-- No environment input writes an actuator. -/
theorem environmentInput_vehicleControl (p : Planning) (input val : Int) :
    (p.environmentInput input val).vehicleControl = p.vehicleControl := by
  unfold environmentInput
  split_ifs <;> rfl

/-- No event of the loop selects Neutral. -/
theorem stepLoop_gear (p : Planning) (e : LoopEvent) (h : p.vehicleControl.gear ≠ 2) :
    (p.stepLoop e).vehicleControl.gear ≠ 2 := by
  cases e with
  | tick =>
    simp only [stepLoop, tick]
    rw [updateDisplay_vehicleControl, check_all_gear]
    exact h
  | environment input val =>
    simp only [stepLoop]
    rw [updateDisplay_vehicleControl, environmentInput_vehicleControl]
    exact h
  | vehicle input val =>
    simp only [stepLoop]
    rw [updateDisplay_vehicleControl]
    exact vehicleInput_gear p input val h

/-- No sequence of loop events selects Neutral. -/
theorem runLoop_gear (events : List LoopEvent) (p : Planning) (h : p.vehicleControl.gear ≠ 2) :
    (p.runLoop events).vehicleControl.gear ≠ 2 := by
  induction events generalizing p with
  | nil => exact h
  | cons e rest ih =>
    unfold runLoop
    rw [List.foldl_cons]
    exact ih (p.stepLoop e) (stepLoop_gear p e h)

end Planning

/-- C27: gear-change acceptance. A `SetGear(g)` command is applied if and only if
`-5 <= velocity <= 5` and `g` is Park (0), Reverse (1) or Drive (3): in that case the
gear becomes `g` and nothing else changes, and otherwise (velocity outside `[-5, 5]`,
or `g` Neutral or any other value) the whole state is unchanged, so the gear can only
change when the command is applied. Consequently, from the state built by
`Planning()`, whatever its uninitialised intent fields hold, no sequence of ticks,
environment inputs and vehicle inputs ever reaches gear Neutral (2). -/
theorem vehicleInputGear_acceptance (p : Planning) (g : Int) (events : List LoopEvent)
    (wantsToAcc wantsToBrk : Bool) (speed_wanted : Int) :
    ((-5 ≤ p.imu.currentVelocity ∧ p.imu.currentVelocity ≤ 5 ∧ (g = 0 ∨ g = 1 ∨ g = 3)) →
      p.vehicleInputGear g = { p with vehicleControl := { p.vehicleControl with gear := g } })
    ∧ (¬ (-5 ≤ p.imu.currentVelocity ∧ p.imu.currentVelocity ≤ 5 ∧ (g = 0 ∨ g = 1 ∨ g = 3)) →
      p.vehicleInputGear g = p)
    ∧ ((p.vehicleInputGear g).vehicleControl.gear ≠ p.vehicleControl.gear →
      (-5 ≤ p.imu.currentVelocity ∧ p.imu.currentVelocity ≤ 5 ∧ (g = 0 ∨ g = 1 ∨ g = 3)))
    ∧ ((Planning.mk0 wantsToAcc wantsToBrk speed_wanted).runLoop events).vehicleControl.gear
        ≠ 2 := by
  refine ⟨(vehicleInputGear_eq p g).1, (vehicleInputGear_eq p g).2, ?_, ?_⟩
  · intro h
    by_contra hA
    rw [(vehicleInputGear_eq p g).2 hA] at h
    exact h rfl
  · apply runLoop_gear
    show (3 : Int) ≠ 2
    decide

/-! ## Completion of a brake command -/

namespace Planning

theorem gearControl_speed_wanted (p : Planning) :
    p.gearControl.speed_wanted = p.speed_wanted := by
  rw [gearControl_eq]

theorem automaticWindshieldWipers_speed_wanted (p : Planning) :
    p.automaticWindshieldWipers.speed_wanted = p.speed_wanted := by
  rw [automaticWindshieldWipers_eq]

theorem automaticaHighBeams_speed_wanted (p : Planning) :
    p.automaticaHighBeams.speed_wanted = p.speed_wanted := by
  rw [automaticaHighBeams_eq]

theorem automaticallyChangeLane_speed_wanted (p : Planning) :
    p.automaticallyChangeLane.speed_wanted = p.speed_wanted := by
  rw [automaticallyChangeLane_eq]

theorem automaticHeadLights_speed_wanted (p : Planning) :
    p.automaticHeadLights.speed_wanted = p.speed_wanted := by
  rw [automaticHeadLights_eq]

theorem intent_steps_speed_wanted (p : Planning) :
    p.brakeWhenObjectDetected.acc.brk.speed_wanted = p.speed_wanted := by
  rw [intent_steps_eq]

/-- The target speed is written by the commands only: a tick keeps it. -/
theorem check_all_speed_wanted (p : Planning) : p.check_all.speed_wanted = p.speed_wanted := by
  unfold check_all
  simp only [gearControl_speed_wanted, automaticWindshieldWipers_speed_wanted,
    automaticaHighBeams_speed_wanted, automaticallyChangeLane_speed_wanted,
    automaticHeadLights_speed_wanted, intent_steps_speed_wanted]

/-- In Drive, when the braking and acceleration steps leave a velocity that is not
negative, the rest of the tick keeps the velocity, the front distance, the intents
and the target speed they leave. -/
theorem tick_fields_of_drive (p : Planning) (hg : p.vehicleControl.gear = 3)
    (hv : 0 ≤ p.brakeWhenObjectDetected.acc.brk.imu.currentVelocity) :
    p.tick.imu = p.brakeWhenObjectDetected.acc.brk.imu
    ∧ p.tick.sensorsAndCameras.distanceInFront
        = p.brakeWhenObjectDetected.acc.brk.sensorsAndCameras.distanceInFront
    ∧ p.tick.vehicleControl.gear = 3
    ∧ p.tick.wantsToAcc = p.brakeWhenObjectDetected.acc.brk.wantsToAcc
    ∧ p.tick.wantsToBrk = p.brakeWhenObjectDetected.acc.brk.wantsToBrk
    ∧ p.tick.speed_wanted = p.speed_wanted := by
  have himu : p.check_all.imu = p.brakeWhenObjectDetected.acc.brk.imu := by
    unfold check_all
    simp only []
    rw [gearControl_imu_of_drive _ (by simpa using hg) (by simpa using hv)]
    simp
  have hdf : p.check_all.sensorsAndCameras.distanceInFront
      = p.brakeWhenObjectDetected.acc.brk.sensorsAndCameras.distanceInFront := by
    unfold check_all
    simp
  unfold tick
  refine ⟨?_, ?_, ?_, ?_, ?_, ?_⟩
  · rw [updateDisplay_imu, himu]
  · rw [updateDisplay_sensorsAndCameras, hdf]
  · rw [updateDisplay_vehicleControl, check_all_gear, hg]
  · rw [updateDisplay_eq]
    exact (check_all_intents_eq p).1
  · rw [updateDisplay_eq]
    exact (check_all_intents_eq p).2
  · rw [updateDisplay_eq]
    exact check_all_speed_wanted p


/-- The pending-braking step never shortens the front distance. -/
theorem brk_distanceInFront_ge (p : Planning) :
    p.sensorsAndCameras.distanceInFront ≤ p.brk.sensorsAndCameras.distanceInFront := by
  have h : p.sensorsAndCameras.distanceInFront
      ≤ (p.callBrakeTo p.speed_wanted).sensorsAndCameras.distanceInFront :=
    VehicleControl.brake_distanceInFront_ge _ _ _ 2
  unfold brk
  simp only []
  split_ifs
  · exact h
  · exact h
  · exact h
  · exact h
  · exact le_refl _


/-- One tick of a pending brake command in Drive with nothing within 100 in front and
no accelerate intent: the state keeps that shape, the velocity becomes `max t b`, it
lies between the target and the old velocity, and the intent is cleared exactly when
the target is reached. -/
theorem tick_of_braking (p : Planning)
    (hg : p.vehicleControl.gear = 3)
    (hd : 100 ≤ p.sensorsAndCameras.distanceInFront)
    (ha : p.wantsToAcc = false) (hw : p.wantsToBrk = true)
    (h0 : 0 ≤ p.speed_wanted)
    (hv : (p.speed_wanted : ℚ) ≤ p.imu.currentVelocity) :
    p.tick.vehicleControl.gear = 3
    ∧ 100 ≤ p.tick.sensorsAndCameras.distanceInFront
    ∧ p.tick.wantsToAcc = false
    ∧ p.tick.speed_wanted = p.speed_wanted
    ∧ p.tick.imu.currentVelocity = brakeToReference p.imu.currentVelocity p.speed_wanted
    ∧ (p.speed_wanted : ℚ) ≤ p.tick.imu.currentVelocity
    ∧ p.tick.imu.currentVelocity ≤ p.imu.currentVelocity
    ∧ (p.tick.wantsToBrk = false ↔ p.tick.imu.currentVelocity = p.speed_wanted) := by
  have h1 : p.brakeWhenObjectDetected = p :=
    brakeWhenObjectDetected_of_idle p (fun _ _ => Or.inr hd)
      (fun h => by rw [hg] at h; exact absurd h (by decide))
  have hq : p.brakeWhenObjectDetected.acc.brk = p.brk := by
    rw [h1, acc_of_no_intent p ha]
  obtain ⟨-, b2, b3, b4, -, b6⟩ := brk_of_drive p hw hg h0 hv
  have h0q : (0 : ℚ) ≤ p.speed_wanted := by exact_mod_cast h0
  have hf := tick_fields_of_drive p hg (by rw [hq]; linarith)
  rw [hq] at hf
  obtain ⟨f1, f2, f3, f4, f5, f6⟩ := hf
  refine ⟨f3, ?_, ?_, f6, ?_, ?_, ?_, ?_⟩
  · rw [f2]
    exact le_trans hd (brk_distanceInFront_ge p)
  · rw [f4, (brk_intents p).1, ha]
  · rw [f1, b2]
  · rw [f1]; exact b3
  · rw [f1]; exact b4
  · rw [f1, f5]; exact b6

/-- The state after `n + 1` ticks is the state after `n` ticks of the ticked state. -/
theorem ticks_succ (p : Planning) (n : Nat) : p.ticks (n + 1) = p.tick.ticks n := rfl

/-- A pending brake command in Drive completes, by induction on a bound `N` of the
number of decay steps needed: `v * 0.9 ^ N <= max t 5`. -/
theorem braking_completes_bounded (N : Nat) (p : Planning)
    (hg : p.vehicleControl.gear = 3)
    (hd : 100 ≤ p.sensorsAndCameras.distanceInFront)
    (ha : p.wantsToAcc = false) (hw : p.wantsToBrk = true)
    (h0 : 0 ≤ p.speed_wanted)
    (hv : (p.speed_wanted : ℚ) ≤ p.imu.currentVelocity)
    (hN : p.imu.currentVelocity * (9 / 10) ^ N ≤ max (p.speed_wanted : ℚ) 5) :
    ∃ n : Nat, 1 ≤ n
      ∧ (p.ticks n).imu.currentVelocity = p.speed_wanted
      ∧ (p.ticks n).wantsToBrk = false
      ∧ ∀ k, k < n →
          (p.ticks (k + 1)).imu.currentVelocity ≤ (p.ticks k).imu.currentVelocity
          ∧ (p.speed_wanted : ℚ) ≤ (p.ticks (k + 1)).imu.currentVelocity := by
  induction N generalizing p with
  | zero =>
    obtain ⟨t1, t2, t3, t4, t5, t6, t7, t8⟩ := tick_of_braking p hg hd ha hw h0 hv
    have h0q : (0 : ℚ) ≤ p.speed_wanted := by exact_mod_cast h0
    have hdone : p.tick.imu.currentVelocity = p.speed_wanted := by
      rw [t5]
      unfold brakeToReference
      rw [pow_zero, mul_one] at hN
      split_ifs with c
      · apply max_eq_left
        rcases le_max_iff.mp hN with h | h
        · linarith
        · linarith
      · exact max_eq_left h0q
    refine ⟨1, le_refl 1, hdone, t8.mpr hdone, ?_⟩
    intro k hk
    have hk0 : k = 0 := Nat.lt_one_iff.mp hk
    subst hk0
    exact ⟨t7, t6⟩
  | succ N ih =>
    obtain ⟨t1, t2, t3, t4, t5, t6, t7, t8⟩ := tick_of_braking p hg hd ha hw h0 hv
    have h0q : (0 : ℚ) ≤ p.speed_wanted := by exact_mod_cast h0
    by_cases hdone : p.tick.imu.currentVelocity = p.speed_wanted
    · refine ⟨1, le_refl 1, hdone, t8.mpr hdone, ?_⟩
      intro k hk
      have hk0 : k = 0 := Nat.lt_one_iff.mp hk
      subst hk0
      exact ⟨t7, t6⟩
    · have hw2 : p.tick.wantsToBrk = true := by
        cases hb : p.tick.wantsToBrk
        · exact absurd (t8.mp hb) hdone
        · rfl
      have hv2 : p.tick.imu.currentVelocity = 90 / 100 * p.imu.currentVelocity := by
        rw [t5]
        rw [t5] at hdone
        unfold brakeToReference at hdone ⊢
        split_ifs with c
        · rw [if_pos c] at hdone
          rcases le_total (p.speed_wanted : ℚ) (90 / 100 * p.imu.currentVelocity) with h | h
          · exact max_eq_right h
          · exact absurd (max_eq_left h) hdone
        · rw [if_neg c] at hdone
          exact absurd (max_eq_left h0q) hdone
      have hN2 : p.tick.imu.currentVelocity * (9 / 10) ^ N
          ≤ max (p.tick.speed_wanted : ℚ) 5 := by
        rw [t4, hv2]
        calc 90 / 100 * p.imu.currentVelocity * (9 / 10) ^ N
            = p.imu.currentVelocity * (9 / 10) ^ (N + 1) := by ring
          _ ≤ max (p.speed_wanted : ℚ) 5 := hN
      obtain ⟨n, hn1, hn2, hn3, hn4⟩ := ih p.tick t1 t2 t3 hw2 (by rw [t4]; exact h0)
        (by rw [t4]; exact t6) hN2
      rw [t4] at hn2 hn4
      refine ⟨n + 1, Nat.le_add_left 1 n, ?_, ?_, ?_⟩
      · rw [ticks_succ p n]; exact hn2
      · rw [ticks_succ p n]; exact hn3
      · intro k hk
        cases k with
        | zero => exact ⟨t7, t6⟩
        | succ j =>
          have hj := hn4 j (Nat.lt_of_succ_lt_succ hk)
          rw [← ticks_succ p (j + 1), ← ticks_succ p j] at hj
          exact hj


/-- Enough decay steps bring any velocity under `max t 5`. -/
theorem exists_decay_bound (v : ℚ) (t : Int) (hv : 0 ≤ v) :
    ∃ N : Nat, v * (9 / 10) ^ N ≤ max (t : ℚ) 5 := by
  have hpos : (0 : ℚ) < 5 / (v + 1) := by positivity
  obtain ⟨N, hN⟩ := exists_pow_lt_of_lt_one hpos (by norm_num : (9 / 10 : ℚ) < 1)
  refine ⟨N, ?_⟩
  have hv1 : (0 : ℚ) < v + 1 := by linarith
  have hb : (0 : ℚ) ≤ (9 / 10) ^ N := by positivity
  have h1 : (9 / 10 : ℚ) ^ N * (v + 1) < 5 := (lt_div_iff₀ hv1).mp hN
  have h2 : v * (9 / 10) ^ N ≤ 5 := by nlinarith
  exact le_trans h2 (le_max_right _ _)

/-- With both intents set in Drive and a target `t <= v`, the pending-acceleration
step puts the velocity on the target and clears the accelerate intent. -/
theorem acc_of_drive_above_target (p : Planning)
    (hg : p.vehicleControl.gear = 3) (ha : p.wantsToAcc = true)
    (hv : (p.speed_wanted : ℚ) ≤ p.imu.currentVelocity) :
    p.acc.imu.currentVelocity = p.speed_wanted
    ∧ p.acc.vehicleControl.gear = 3
    ∧ p.acc.wantsToBrk = p.wantsToBrk
    ∧ p.acc.speed_wanted = p.speed_wanted := by
  obtain ⟨⟨cc, ww, hl, g, ts⟩, ⟨v⟩, sc, gps, ⟨ll, df, db, oR, oL, rn⟩, d, wa, wb, sw⟩ := p
  simp only at hg ha hv
  subst hg
  subst ha
  by_cases h10 : v ≤ 10
  · have ht : (sw : ℚ) ≤ 12 := by linarith
    simp [acc, callAccelerateTo, VehicleControl.accelerateTo, h10, ht]
    norm_num [ht]
  · have ht : (sw : ℚ) ≤ v * (110 / 100) := by
      have : 10 < v := not_le.mp h10
      linarith
    simp [acc, callAccelerateTo, VehicleControl.accelerateTo, h10, ht]

/-- With both intents set in Drive, nothing within 100 in front and a target
`0 <= t <= v`, one tick puts the velocity on the target and clears the brake
intent. -/
theorem tick_of_both_intents (p : Planning)
    (hg : p.vehicleControl.gear = 3)
    (hd : 100 ≤ p.sensorsAndCameras.distanceInFront)
    (ha : p.wantsToAcc = true) (hw : p.wantsToBrk = true)
    (h0 : 0 ≤ p.speed_wanted)
    (hv : (p.speed_wanted : ℚ) ≤ p.imu.currentVelocity) :
    p.tick.imu.currentVelocity = p.speed_wanted ∧ p.tick.wantsToBrk = false := by
  have h1 : p.brakeWhenObjectDetected = p :=
    brakeWhenObjectDetected_of_idle p (fun _ _ => Or.inr hd)
      (fun h => by rw [hg] at h; exact absurd h (by decide))
  obtain ⟨a1, a2, a3, a4⟩ := acc_of_drive_above_target p hg ha hv
  obtain ⟨-, -, b3, b4, -, b6⟩ := brk_of_drive p.acc (by rw [a3]; exact hw) a2
    (by rw [a4]; exact h0) (by rw [a4, a1])
  rw [a4] at b3 b6
  rw [a1] at b4
  have hb : p.acc.brk.imu.currentVelocity = p.speed_wanted := le_antisymm b4 b3
  have h0q : (0 : ℚ) ≤ p.speed_wanted := by exact_mod_cast h0
  have hf := tick_fields_of_drive p hg (by rw [h1, hb]; exact h0q)
  rw [h1] at hf
  obtain ⟨f1, -, -, -, f5, -⟩ := hf
  exact ⟨by rw [f1]; exact hb, by rw [f5]; exact b6.mpr hb⟩

/-- A pending brake command in Drive completes, whatever the accelerate intent. -/
theorem braking_completes (p : Planning)
    (hg : p.vehicleControl.gear = 3)
    (hd : 100 ≤ p.sensorsAndCameras.distanceInFront)
    (hw : p.wantsToBrk = true)
    (h0 : 0 ≤ p.speed_wanted)
    (hv : (p.speed_wanted : ℚ) ≤ p.imu.currentVelocity) :
    ∃ n : Nat, 1 ≤ n
      ∧ (p.ticks n).imu.currentVelocity = p.speed_wanted
      ∧ (p.ticks n).wantsToBrk = false
      ∧ ∀ k, k < n →
          (p.ticks (k + 1)).imu.currentVelocity ≤ (p.ticks k).imu.currentVelocity
          ∧ (p.speed_wanted : ℚ) ≤ (p.ticks (k + 1)).imu.currentVelocity := by
  have h0q : (0 : ℚ) ≤ p.speed_wanted := by exact_mod_cast h0
  cases ha : p.wantsToAcc
  · obtain ⟨N, hN⟩ := exists_decay_bound p.imu.currentVelocity p.speed_wanted (by linarith)
    exact braking_completes_bounded N p hg hd ha hw h0 hv hN
  · obtain ⟨t1, t2⟩ := tick_of_both_intents p hg hd ha hw h0 hv
    refine ⟨1, le_refl 1, t1, t2, ?_⟩
    intro k hk
    have hk0 : k = 0 := Nat.lt_one_iff.mp hk
    subst hk0
    have e : (p.ticks (0 + 1)).imu.currentVelocity = p.speed_wanted := t1
    rw [e]
    exact ⟨hv, le_refl _⟩

end Planning

/-- C26: a brake command completes. For every state with gear Drive (3),
`distanceFront >= 100`, a pending brake intent and an integer target
`t = speed_wanted` with `0 <= t <= v` (so the velocity `v` is at least 0), there is a
number `n >= 1` of ticks after which the velocity equals `t` exactly and no brake
intent is pending; over those ticks the velocity never increases and never drops
below `t`. -/
theorem brake_command_completes (p : Planning)
    (hg : p.vehicleControl.gear = 3)
    (hd : 100 ≤ p.sensorsAndCameras.distanceInFront)
    (hw : p.wantsToBrk = true)
    (h0 : 0 ≤ p.speed_wanted)
    (hv : (p.speed_wanted : ℚ) ≤ p.imu.currentVelocity) :
    ∃ n : Nat, 1 ≤ n
      ∧ (p.ticks n).imu.currentVelocity = p.speed_wanted
      ∧ (p.ticks n).wantsToBrk = false
      ∧ ∀ k, k < n →
          (p.ticks (k + 1)).imu.currentVelocity ≤ (p.ticks k).imu.currentVelocity
          ∧ (p.speed_wanted : ℚ) ≤ (p.ticks (k + 1)).imu.currentVelocity :=
  braking_completes p hg hd hw h0 hv

/-- The brake command of the witness below, tick by tick: from 60 the velocity decays
by the factor 0.90 for six ticks and is put on the target 30 by the seventh. -/
theorem brakingState_seven_ticks :
    (brakingState.ticks 1).imu.currentVelocity = 54
    ∧ (brakingState.ticks 6).imu.currentVelocity = 31886460 / 1000000
    ∧ (brakingState.ticks 6).wantsToBrk = true
    ∧ (brakingState.ticks 7).imu.currentVelocity = 30
    ∧ (brakingState.ticks 7).wantsToBrk = false := by
  decide!

/-- Witness of C26: the start state (Drive, velocity 60, nothing in front) with an
intent to brake to 30. -/
theorem brake_command_completes_witness :
    ∃ n : Nat, 1 ≤ n
      ∧ (brakingState.ticks n).imu.currentVelocity = brakingState.speed_wanted
      ∧ (brakingState.ticks n).wantsToBrk = false
      ∧ ∀ k, k < n →
          (brakingState.ticks (k + 1)).imu.currentVelocity
            ≤ (brakingState.ticks k).imu.currentVelocity
          ∧ (brakingState.speed_wanted : ℚ) ≤ (brakingState.ticks (k + 1)).imu.currentVelocity :=
  brake_command_completes brakingState (by decide!) (by decide!) (by decide!) (by decide!)
    (by decide!)

end Alset
